import Mathlib

/-!
Verification development for the merchant-integration repository
(Telegram wallet bot integrated with the KKPay payment processor).

The Python sources are shallowly embedded:
* `shared_data.py` — in-memory dictionaries become association lists
  (`List (K × V)`) with dict-faithful lookup / insert / delete;
* `webhook_server.py` — callback handlers become state-passing functions
  `SharedData → SharedData`; the HTTP handler returns a status plus state;
* `main.py` — the bot's order-creation handlers become functions taking the
  gateway response (the external RPC result) as an explicit argument;
* `kkpay_api.py` — `generate_sign` is embedded on top of a concrete SHA-256
  and base64 implementation over byte lists (`List Nat`, each entry a byte).

Python floats holding money amounts are modelled as exact rationals (`ℚ`).
Wall-clock timestamp fields (`datetime.now()`) are omitted: no claim and no
control flow in the sources depends on them.
-/

/-! ## Association lists: the embedding of Python dicts -/

section AssocList

variable {K V : Type} [DecidableEq K]

/-- `d.get(k)` on a Python dict: first (unique) matching key. -/
def alGet : List (K × V) → K → Option V
  | [], _ => none
  | (k', v) :: rest, k => if k' = k then some v else alGet rest k

/-- `d[k] = v` on a Python dict: replace in place, or append a fresh key. -/
def alSet : List (K × V) → K → V → List (K × V)
  | [], k, v => [(k, v)]
  | (k', v') :: rest, k, v =>
      if k' = k then (k, v) :: rest else (k', v') :: alSet rest k v

/-- `del d[k]` on a Python dict: the key is absent afterwards. -/
def alErase (l : List (K × V)) (k : K) : List (K × V) :=
  l.filter (fun p => if p.1 = k then false else true)

theorem alGet_alSet (l : List (K × V)) (k k' : K) (v : V) :
    alGet (alSet l k v) k' = if k = k' then some v else alGet l k' := by
  induction l with
  | nil => by_cases h : k = k' <;> simp [alSet, alGet, h]
  | cons p rest ih =>
    obtain ⟨pk, pv⟩ := p
    by_cases hpk : pk = k
    · subst hpk
      by_cases h : pk = k' <;> simp [alSet, alGet, h]
    · by_cases h : k = k'
      · subst h
        simp [alSet, alGet, hpk, ih]
      · simp only [alSet, if_neg hpk, alGet]
        by_cases h2 : pk = k' <;> simp [h2, ih, h]

theorem alGet_alErase (l : List (K × V)) (k k' : K) :
    alGet (alErase l k) k' = if k = k' then none else alGet l k' := by
  induction l with
  | nil => by_cases h : k = k' <;> simp [alErase, alGet, h]
  | cons p rest ih =>
    obtain ⟨pk, pv⟩ := p
    by_cases hpk : pk = k
    · subst hpk
      by_cases h : pk = k' <;>
        simp_all [alErase, alGet, List.filter]
    · by_cases h : k = k'
      · subst h
        simp_all [alErase, alGet, List.filter, hpk]
      · by_cases h2 : pk = k' <;>
          simp_all [alErase, alGet, List.filter]

end AssocList

/-! ## Data model (`shared_data.py`) -/

/-- One entry of `account['transactions']` (`add_transaction`, shared_data.py).
The Python `status` value can be set to `None` by
`handle_withdraw_callback` when the callback carries no `orderStatus`,
hence `Option String`.  The `timestamp` field is omitted (wall clock). -/
structure Transaction where
  txType : String
  amount : ℚ
  status : Option String
  order_id : String
  note : String
deriving DecidableEq, Repr

/-- One value of `user_accounts` (`get_user_account`, shared_data.py);
`created_at` is omitted (wall clock). -/
structure Account where
  balance : ℚ
  transactions : List Transaction
deriving DecidableEq, Repr

/-- One value of `pending_orders`: the dict literals built in
`process_topup_amount` / `process_recipient_id` (main.py), with the keys
(`txid`, `fee`, `recipient_id`) that are only sometimes present as `Option`.
`created_at` is omitted (wall clock). -/
structure PendingOrder where
  user_id : Nat
  recipient_id : Option Int
  amount : ℚ
  coin : String
  otype : String
  status : String
  txid : Option String
  fee : Option String
deriving DecidableEq, Repr

/-- The two module-level dicts of shared_data.py. -/
structure SharedData where
  user_accounts : List (Nat × Account)
  pending_orders : List (String × PendingOrder)
deriving DecidableEq, Repr

/-- `get_user_account` (shared_data.py:13): get-or-create; returns the account
together with the possibly extended state. -/
def get_user_account (s : SharedData) (u : Nat) : Account × SharedData :=
  match alGet s.user_accounts u with
  | some a => (a, s)
  | none =>
      let a : Account := ⟨0, []⟩
      (a, { s with user_accounts := alSet s.user_accounts u a })

/-- `add_transaction` (shared_data.py:23): appends one record. -/
def add_transaction (s : SharedData) (u : Nat) (ty : String) (amt : ℚ)
    (st : String) (oid : String) (note : String) : SharedData :=
  let p := get_user_account s u
  let a := { p.1 with transactions := p.1.transactions ++ [⟨ty, amt, some st, oid, note⟩] }
  { p.2 with user_accounts := alSet p.2.user_accounts u a }

/-- `add_pending_order` (shared_data.py:36). -/
def add_pending_order (s : SharedData) (oid : String) (o : PendingOrder) : SharedData :=
  { s with pending_orders := alSet s.pending_orders oid o }

/-- `get_pending_order` (shared_data.py:40). -/
def get_pending_order (s : SharedData) (oid : String) : Option PendingOrder :=
  alGet s.pending_orders oid

/-- `remove_pending_order` (shared_data.py:44). -/
def remove_pending_order (s : SharedData) (oid : String) : SharedData :=
  { s with pending_orders := alErase s.pending_orders oid }

/-- `update_user_balance` (shared_data.py:49): `account['balance'] += amount`. -/
def update_user_balance (s : SharedData) (u : Nat) (amt : ℚ) : SharedData :=
  let p := get_user_account s u
  let a := { p.1 with balance := p.1.balance + amt }
  { p.2 with user_accounts := alSet p.2.user_accounts u a }

/-- The loop body of `update_transaction_status` (shared_data.py:54): set the
status of the first transaction whose `order_id` matches, leave the rest. -/
def setFirstStatus (oid : String) (st : Option String) :
    List Transaction → List Transaction
  | [] => []
  | tx :: rest =>
      if tx.order_id = oid then { tx with status := st } :: rest
      else tx :: setFirstStatus oid st rest

/-- `update_transaction_status` (shared_data.py:54). -/
def update_transaction_status (s : SharedData) (u : Nat) (oid : String)
    (st : Option String) : SharedData :=
  let p := get_user_account s u
  let a := { p.1 with transactions := setFirstStatus oid st p.1.transactions }
  { p.2 with user_accounts := alSet p.2.user_accounts u a }

/-- The account currently recorded for `u` (default: the zero account that
`get_user_account` would create). -/
def accOf (s : SharedData) (u : Nat) : Account :=
  (alGet s.user_accounts u).getD ⟨0, []⟩

/-- Balance of the account recorded for `u` (0 when absent). -/
def balOf (s : SharedData) (u : Nat) : ℚ := (accOf s u).balance

/-- Transaction log of the account recorded for `u`. -/
def txsOf (s : SharedData) (u : Nat) : List Transaction := (accOf s u).transactions

/-! ## SHA-256 and base64 over byte lists (`kkpay_api.py`, `webhook_server.py`)

`hashlib.sha256(...).digest()` and `base64.b64encode` are embedded concretely
(FIPS 180-4 / RFC 4648); payloads and secrets are byte lists (`List Nat`,
entries < 256).  32-bit words are `Nat` reduced mod `2 ^ 32`. -/

/-- Right rotation of a 32-bit word. -/
def rotr32 (n x : Nat) : Nat := ((x >>> n) ||| (x <<< (32 - n))) % 4294967296

/-- Bitwise complement of a 32-bit word. -/
def bnot32 (x : Nat) : Nat := 4294967295 - x

/-- SHA-256 round constants (FIPS 180-4 §4.2.2, written in decimal). -/
def sha256K : List Nat :=
  [1116352408, 1899447441, 3049323471, 3921009573, 961987163,
   1508970993, 2453635748, 2870763221, 3624381080, 310598401,
   607225278, 1426881987, 1925078388, 2162078206, 2614888103,
   3248222580, 3835390401, 4022224774, 264347078, 604807628,
   770255983, 1249150122, 1555081692, 1996064986, 2554220882,
   2821834349, 2952996808, 3210313671, 3336571891, 3584528711,
   113926993, 338241895, 666307205, 773529912, 1294757372,
   1396182291, 1695183700, 1986661051, 2177026350, 2456956037,
   2730485921, 2820302411, 3259730800, 3345764771, 3516065817,
   3600352804, 4094571909, 275423344, 430227734, 506948616,
   659060556, 883997877, 958139571, 1322822218, 1537002063,
   1747873779, 1955562222, 2024104815, 2227730452, 2361852424,
   2428436474, 2756734187, 3204031479, 3329325298]

/-- SHA-256 initial hash value (FIPS 180-4 §5.3.3, written in decimal). -/
def sha256H0 : List Nat :=
  [1779033703, 3144134277, 1013904242, 2773480762,
   1359893119, 2600822924, 528734635, 1541459225]

/-- A `Nat` as `w` big-endian bytes. -/
def beBytes (w n : Nat) : List Nat :=
  match w with
  | 0 => []
  | w' + 1 => ((n >>> (8 * w')) % 256) :: beBytes w' n

/-- Big-endian 32-bit word from 4 bytes. -/
def word32 (bs : List Nat) : Nat :=
  bs.foldl (fun acc b => acc * 256 + b % 256) 0

/-- SHA-256 padding: `0x80`, zeros until the stream is ≡ 56 mod 64, then the
8-byte big-endian bit length, so the padded stream is a multiple of 64. -/
def sha256Pad (m : List Nat) : List Nat :=
  let l := m.length
  let z := (64 + 56 - (l + 1) % 64) % 64
  m ++ [0x80] ++ List.replicate z 0 ++ beBytes 8 (8 * l)

/-- Split a byte list into 64-byte blocks; structural recursion on a fuel
argument (the caller passes the list length, which always suffices since
every step consumes at least one byte) so that the kernel can evaluate it. -/
def toBlocksGo : Nat → List Nat → List (List Nat)
  | _, [] => []
  | 0, _ :: _ => []
  | fuel + 1, b :: rest => ((b :: rest).take 64) :: toBlocksGo fuel ((b :: rest).drop 64)

/-- Split a byte list into 64-byte blocks. -/
def toBlocks (l : List Nat) : List (List Nat) := toBlocksGo l.length l

/-- Split a 64-byte block into 16 words; fuel-structured like `toBlocksGo`. -/
def toWordsGo : Nat → List Nat → List Nat
  | _, [] => []
  | 0, _ :: _ => []
  | fuel + 1, b :: rest => word32 ((b :: rest).take 4) :: toWordsGo fuel ((b :: rest).drop 4)

/-- Split a 64-byte block into 16 big-endian words. -/
def toWords (l : List Nat) : List Nat := toWordsGo l.length l

/-- One message-schedule extension step: appends `w[i]` for `i = ws.length`. -/
def scheduleStep (ws : List Nat) : List Nat :=
  let i := ws.length
  let w15 := ws.getD (i - 15) 0
  let w2 := ws.getD (i - 2) 0
  let s0 := (rotr32 7 w15) ^^^ (rotr32 18 w15) ^^^ (w15 >>> 3)
  let s1 := (rotr32 17 w2) ^^^ (rotr32 19 w2) ^^^ (w2 >>> 10)
  ws ++ [(ws.getD (i - 16) 0 + s0 + ws.getD (i - 7) 0 + s1) % 4294967296]

/-- One compression round on the working state `[a,b,c,d,e,f,g,h]`. -/
def sha256Round (st : List Nat) (kw : Nat × Nat) : List Nat :=
  let a := st.getD 0 0
  let b := st.getD 1 0
  let c := st.getD 2 0
  let d := st.getD 3 0
  let e := st.getD 4 0
  let f := st.getD 5 0
  let g := st.getD 6 0
  let h := st.getD 7 0
  let bigS1 := (rotr32 6 e) ^^^ (rotr32 11 e) ^^^ (rotr32 25 e)
  let ch := (e &&& f) ^^^ ((bnot32 e) &&& g)
  let t1 := (h + bigS1 + ch + kw.1 + kw.2) % 4294967296
  let bigS0 := (rotr32 2 a) ^^^ (rotr32 13 a) ^^^ (rotr32 22 a)
  let maj := (a &&& b) ^^^ (a &&& c) ^^^ (b &&& c)
  let t2 := (bigS0 + maj) % 4294967296
  [(t1 + t2) % 4294967296, a, b, c, (d + t1) % 4294967296, e, f, g]

/-- Process one 64-byte block against the running hash value. -/
def sha256Block (hv : List Nat) (block : List Nat) : List Nat :=
  let ws := scheduleStep^[48] (toWords block)
  let st := (sha256K.zip ws).foldl sha256Round hv
  (hv.zip st).map (fun p => (p.1 + p.2) % 4294967296)

/-- `hashlib.sha256(m).digest()`: the 32-byte SHA-256 digest of `m`. -/
def sha256 (m : List Nat) : List Nat :=
  let hv := (toBlocks (sha256Pad m)).foldl sha256Block sha256H0
  (hv.map (beBytes 4)).flatten

/-- The RFC 4648 base64 alphabet. -/
def b64chars : List Char :=
  "ABCDEFGHIJKLMNOPQRSTUVWXYZabcdefghijklmnopqrstuvwxyz0123456789+/".toList

/-- Encode a byte list in base64 (groups of 3 bytes, `'='` padding);
fuel-structured like `toBlocksGo`. -/
def base64encodeGo : Nat → List Nat → List Char
  | _, [] => []
  | 0, _ :: _ => []
  | fuel + 1, b :: rest =>
    let g := (b :: rest).take 3
    let b0 := g.getD 0 0 % 256
    let b1 := g.getD 1 0 % 256
    let b2 := g.getD 2 0 % 256
    let n := b0 * 65536 + b1 * 256 + b2
    let c0 := b64chars.getD (n / 262144) 'A'
    let c1 := b64chars.getD (n / 4096 % 64) 'A'
    let c2 := if g.length ≥ 2 then b64chars.getD (n / 64 % 64) 'A' else '='
    let c3 := if g.length ≥ 3 then b64chars.getD (n % 64) 'A' else '='
    c0 :: c1 :: c2 :: c3 :: base64encodeGo fuel ((b :: rest).drop 3)

/-- Encode a byte list in base64. -/
def base64encodeList (l : List Nat) : List Char := base64encodeGo l.length l

/-- `base64.b64encode(bs).decode('utf-8')`. -/
def base64encode (l : List Nat) : String := String.mk (base64encodeList l)

/-- UTF-8 encoding of one character (`str.encode('utf-8')`, per character). -/
def utf8Char (c : Char) : List Nat :=
  let n := c.toNat
  if n < 128 then [n]
  else if n < 2048 then [192 ||| (n >>> 6), 128 ||| (n &&& 63)]
  else if n < 65536 then
    [224 ||| (n >>> 12), 128 ||| ((n >>> 6) &&& 63), 128 ||| (n &&& 63)]
  else
    [240 ||| (n >>> 18), 128 ||| ((n >>> 12) &&& 63),
     128 ||| ((n >>> 6) &&& 63), 128 ||| (n &&& 63)]

/-- `s.encode('utf-8')` as a byte list. -/
def utf8Bytes (s : String) : List Nat := (s.toList.map utf8Char).flatten

/-! ## Signatures (`kkpay_api.py:28`, `webhook_server.py:39`) -/

/-- `KKPAY_SECRET` (webhook_server.py:28): the configured shared secret, as
the bytes of its default value. -/
def KKPAY_SECRET : List Nat := utf8Bytes "demo_secret_key_456"

/-- `KKPAY_MERCHANT_ID` (webhook_server.py:27): the configured merchant id. -/
def KKPAY_MERCHANT_ID : String := "demo_merchant_123"

/-- The `KKPayAPI` object (kkpay_api.py:21): merchant id and secret, the
secret as bytes. -/
structure KKPayAPI where
  merchant_id : String
  secret : List Nat
deriving DecidableEq

/-- `KKPayAPI.generate_sign` (kkpay_api.py:28): base64 of the SHA-256 digest
of the payload concatenated with the instance's secret. -/
def KKPayAPI.generate_sign (api : KKPayAPI) (data : List Nat) : String :=
  base64encode (sha256 (data ++ api.secret))

/-- `verify_signature` (webhook_server.py:39).  The received signature header
may be absent (`None`), hence `Option String`; Python's `expected == None`
comparison is `False`, and the surrounding `try/except` turns any fault into
`False`, so the function is total and fails closed. -/
def verify_signature (data : List Nat) (received_signature : Option String) : Bool :=
  let expected_signature := base64encode (sha256 (data ++ KKPAY_SECRET))
  match received_signature with
  | some sg => expected_signature == sg
  | none => false

/-! ## Webhook callback handlers (`webhook_server.py`) -/

/-- The decoded callback payload: the fields read out of `callback_data` by
the handlers, each `Option` because Python uses `dict.get`. -/
structure CallbackData where
  businessType : Option String
  userOrder : Option String
  amount : Option ℚ
  orderStatus : Option String
deriving DecidableEq, Repr

/-- `handle_deposit_callback` (webhook_server.py:73): on a known pending
order with `orderStatus` `'success'` (the default when absent), credits the
callback amount (default 0), marks the transaction `'success'`, and always
removes the pending order; unknown orders are only logged. -/
def handle_deposit_callback (cb : CallbackData) (s : SharedData) : SharedData :=
  let amount := cb.amount.getD 0
  let order_status := cb.orderStatus.getD "success"
  match cb.userOrder with
  | none => s
  | some user_order =>
    match get_pending_order s user_order with
    | none => s
    | some order =>
      let user_id := order.user_id
      let s1 := (get_user_account s user_id).2
      let s2 :=
        if order_status = "success" then
          update_transaction_status (update_user_balance s1 user_id amount)
            user_id user_order (some "success")
        else s1
      remove_pending_order s2 user_order

/-- `handle_withdraw_callback` (webhook_server.py:113): on a known pending
order, sets the transaction status to the callback's `orderStatus`, refunds
the *stored order's* amount when that status is `'fail'`, and removes the
pending order; unknown orders are only logged. -/
def handle_withdraw_callback (cb : CallbackData) (s : SharedData) : SharedData :=
  match cb.userOrder with
  | none => s
  | some user_order =>
    match get_pending_order s user_order with
    | none => s
    | some order =>
      let user_id := order.user_id
      let s1 := (get_user_account s user_id).2
      let s2 := update_transaction_status s1 user_id user_order cb.orderStatus
      let s3 :=
        if cb.orderStatus = some "fail" then update_user_balance s2 user_id order.amount
        else s2
      remove_pending_order s3 user_order

/-- The three HTTP response statuses `kkpay_webhook_handler` can produce on
its normal paths. -/
inductive HttpStatus where
  | ok200
  | unauthorized401
  | badRequest400
deriving DecidableEq, Repr

/-- `kkpay_webhook_handler` (webhook_server.py:179).  `merchant_id` and
`signature` are the two request headers (absent = `none`); `body` is the raw
request body; `decoded` is the result of the base64+JSON decode of the body
(passed as an oracle because the JSON parser is an external library — the
handler consults it only after both authentication checks, so quantifying
over it expresses that the rejection paths never decode). -/
def kkpay_webhook_handler (merchant_id signature : Option String)
    (body : List Nat) (decoded : Option CallbackData) (s : SharedData) :
    HttpStatus × SharedData :=
  if merchant_id ≠ some KKPAY_MERCHANT_ID then (HttpStatus.unauthorized401, s)
  else if verify_signature body signature = false then (HttpStatus.unauthorized401, s)
  else
    match decoded with
    | none => (HttpStatus.badRequest400, s)
    | some cb =>
      match cb.businessType with
      | some bt =>
        if bt = "deposit" then (HttpStatus.ok200, handle_deposit_callback cb s)
        else if bt = "withdraw" then (HttpStatus.ok200, handle_withdraw_callback cb s)
        else (HttpStatus.ok200, s)
      | none => (HttpStatus.ok200, s)

/-! ## Order creation (`main.py`) -/

/-- The fields of the KKPay RPC response read by main.py: `response.get('code')`
and `response.get('data', {}).get(...)` with their source defaults applied. -/
structure KKPayResponse where
  code : Int
  txid : String
  fee : String
deriving DecidableEq, Repr

/-- The through-the-reference mutation
`order = get_pending_order(...); if order: order['txid'] = txid`
(main.py:243). -/
def set_order_txid (s : SharedData) (oid : String) (txid : String) : SharedData :=
  match get_pending_order s oid with
  | some o => add_pending_order s oid { o with txid := some txid }
  | none => s

/-- The through-the-reference mutation setting `order['txid']` and
`order['fee']` (main.py:464). -/
def set_order_txid_fee (s : SharedData) (oid : String) (txid fee : String) :
    SharedData :=
  match get_pending_order s oid with
  | some o => add_pending_order s oid { o with txid := some txid, fee := some fee }
  | none => s

/-- The in-place mutation `account['balance'] -= amount` on
`get_user_account(user_id)` (main.py:470). -/
def deduct_balance (s : SharedData) (u : Nat) (amount : ℚ) : SharedData :=
  let p := get_user_account s u
  let a := { p.1 with balance := p.1.balance - amount }
  { p.2 with user_accounts := alSet p.2.user_accounts u a }

/-- `process_topup_amount` (main.py:202), state part.  The gateway response is
an argument (external RPC).  Registers the pending order *before* the gateway
call; on `code == 1000` stores the txid on the order and appends the pending
topup transaction; on any other code only the user-facing error text changes —
the pending order is left in place and no transaction is recorded. -/
def process_topup_amount (u : Nat) (amount : ℚ) (coin : String)
    (user_order : String) (resp : KKPayResponse) (s : SharedData) : SharedData :=
  if amount < 1 then s
  else
    let s1 := add_pending_order s user_order
      ⟨u, none, amount, coin, "topup", "pending", none, none⟩
    if resp.code = 1000 then
      add_transaction (set_order_txid s1 user_order resp.txid) u "topup" amount
        "pending" user_order ("充值 " ++ coin)
    else s1

/-- `process_withdraw_amount` (main.py:372), state part: rejects amounts < 1
and amounts above the balance; returns the (possibly account-creating) state
and whether the flow advances to the recipient prompt. -/
def process_withdraw_amount (u : Nat) (amount : ℚ) (s : SharedData) :
    SharedData × Bool :=
  if amount < 1 then (s, false)
  else
    let p := get_user_account s u
    if p.1.balance < amount then (p.2, false) else (p.2, true)

/-- `process_recipient_id` (main.py:416) up to the `create_withdraw_order`
call: the state in which the gateway is invoked.  Only the pending order has
been registered — no balance change, no transaction. -/
def process_recipient_id_pre (u : Nat) (recipient : Int) (amount : ℚ)
    (coin : String) (user_order : String) (s : SharedData) : SharedData :=
  add_pending_order s user_order
    ⟨u, some recipient, amount, coin, "withdraw", "pending", none, none⟩

/-- `process_recipient_id` (main.py:416) after the gateway response: on
`code == 1000` stores txid/fee on the order, deducts the balance
(`account['balance'] -= amount`, main.py:471) and appends the pending
withdraw transaction; otherwise only the error text changes. -/
def process_recipient_id_post (u : Nat) (recipient : Int) (amount : ℚ)
    (coin : String) (user_order : String) (resp : KKPayResponse)
    (s1 : SharedData) : SharedData :=
  if resp.code = 1000 then
    let s2 := set_order_txid_fee s1 user_order resp.txid resp.fee
    add_transaction (deduct_balance s2 u amount) u "withdraw" (-amount) "pending"
      user_order ("提现 " ++ coin ++ " 到 " ++ toString recipient)
  else s1

/-- `process_recipient_id` (main.py:416), state part: recipient-existence
check (the external `censorUserbyTGID` RPC result is an argument), then the
pre-gateway registration followed by the post-response actions. -/
def process_recipient_id (u : Nat) (recipient : Int) (recipientExists : Bool)
    (amount : ℚ) (coin : String) (user_order : String) (resp : KKPayResponse)
    (s : SharedData) : SharedData :=
  if recipientExists = false then s
  else
    process_recipient_id_post u recipient amount coin user_order resp
      (process_recipient_id_pre u recipient amount coin user_order s)

/-! ## Bot-level trace model (conversation FSM + public operations)

`main.py` drives the shared state through aiogram FSM states
(`UserStates`); the webhook server applies callbacks.  A reachable state is
the fold of a list of these operations over the empty initial state.  Each
operation is one Python handler invocation; `asyncio` runs each handler body
of shared_data mutations without preemption, so handlers are atomic steps
here (the finer interleaving inside `process_recipient_id` is treated
separately, at its `await` points, for the concurrency analysis). -/

/-- The per-user aiogram FSM state (`UserStates`, main.py:45), together with
the FSM data (`coin`, `amount`) relevant to control flow. -/
inductive FSMState where
  | idle
  | waitingTopupAmount (coin : String)
  | waitingWithdrawAmount (coin : String)
  | waitingRecipient (coin : String) (amount : ℚ)
deriving DecidableEq, Repr

/-- Shared data plus the per-user conversation states. -/
structure BotState where
  shared : SharedData
  fsm : List (Nat × FSMState)
deriving DecidableEq, Repr

/-- The FSM state of user `u` (no stored state = `idle`). -/
def getFSM (b : BotState) (u : Nat) : FSMState := (alGet b.fsm u).getD FSMState.idle

/-- One public operation: a bot handler firing or a webhook callback. -/
inductive Op where
  /-- `/start` (or the account/menu views): `get_user_account` only. -/
  | startCmd (u : Nat)
  /-- `select_coin_for_topup` (main.py:169): sets `waiting_for_topup_amount`. -/
  | selectCoinTopup (u : Nat) (coin : String)
  /-- coin selection for withdrawal (main.py:327): sets
  `waiting_for_withdraw_amount`. -/
  | selectCoinWithdraw (u : Nat) (coin : String)
  /-- `process_topup_amount` (main.py:202) with the gateway response. -/
  | topupAmount (u : Nat) (amount : ℚ) (user_order : String) (resp : KKPayResponse)
  /-- `process_withdraw_amount` (main.py:372). -/
  | withdrawAmount (u : Nat) (amount : ℚ)
  /-- `process_recipient_id` (main.py:416) with the recipient-check and
  gateway responses. -/
  | recipientId (u : Nat) (recipient : Int) (recipientExists : Bool)
      (user_order : String) (resp : KKPayResponse)
  /-- `handle_deposit_callback` (webhook_server.py:73). -/
  | depositCallback (cb : CallbackData)
  /-- `handle_withdraw_callback` (webhook_server.py:113). -/
  | withdrawCallback (cb : CallbackData)
deriving DecidableEq

/-- One step of the system.  FSM guards and `state.set_state` /
`state.clear()` placement follow the handlers: `process_topup_amount` and
`process_recipient_id` clear the state on both gateway outcomes, but an
amount below the minimum or a failed recipient check returns early with the
conversation state kept. -/
def stepOp (b : BotState) : Op → BotState
  | Op.startCmd u => { b with shared := (get_user_account b.shared u).2 }
  | Op.selectCoinTopup u coin =>
      { b with fsm := alSet b.fsm u (FSMState.waitingTopupAmount coin) }
  | Op.selectCoinWithdraw u coin =>
      { b with fsm := alSet b.fsm u (FSMState.waitingWithdrawAmount coin) }
  | Op.topupAmount u amount user_order resp =>
      match getFSM b u with
      | FSMState.waitingTopupAmount coin =>
          if amount < 1 then b
          else
            ⟨process_topup_amount u amount coin user_order resp b.shared,
             alSet b.fsm u FSMState.idle⟩
      | _ => b
  | Op.withdrawAmount u amount =>
      match getFSM b u with
      | FSMState.waitingWithdrawAmount coin =>
          let p := process_withdraw_amount u amount b.shared
          if p.2 then ⟨p.1, alSet b.fsm u (FSMState.waitingRecipient coin amount)⟩
          else ⟨p.1, b.fsm⟩
      | _ => b
  | Op.recipientId u recipient recipientExists user_order resp =>
      match getFSM b u with
      | FSMState.waitingRecipient coin amount =>
          if recipientExists = false then b
          else
            ⟨process_recipient_id u recipient recipientExists amount coin
               user_order resp b.shared,
             alSet b.fsm u FSMState.idle⟩
      | _ => b
  | Op.depositCallback cb => { b with shared := handle_deposit_callback cb b.shared }
  | Op.withdrawCallback cb => { b with shared := handle_withdraw_callback cb b.shared }

/-- The empty initial state. -/
def initState : BotState := ⟨⟨[], []⟩, []⟩

/-- Run a list of operations from a state. -/
def runOps (b : BotState) (ops : List Op) : BotState := ops.foldl stepOp b

/-- Whether an operation's external input is within the payment processor's
documented range: deposit settlement callbacks report the (nonnegative) paid
amount.  The code itself never checks this. -/
def opOk : Op → Bool
  | Op.depositCallback cb => decide (0 ≤ cb.amount.getD 0)
  | _ => true

/-- All recorded balances are nonnegative. -/
def BalNonneg (s : SharedData) : Prop := ∀ u, 0 ≤ balOf s u

/-- All pending orders carry a nonnegative amount. -/
def PendNonneg (s : SharedData) : Prop :=
  ∀ oid o, get_pending_order s oid = some o → 0 ≤ o.amount

/-- A user waiting at the recipient prompt has an FSM-stored amount that
passed the balance check and is still covered by the balance. -/
def FsmOk (b : BotState) : Prop :=
  ∀ u coin amt, getFSM b u = FSMState.waitingRecipient coin amt →
    0 ≤ amt ∧ amt ≤ balOf b.shared u

/-- The inductive invariant for the reachable-state analysis. -/
def InvState (b : BotState) : Prop := BalNonneg b.shared ∧ PendNonneg b.shared ∧ FsmOk b

/-- The interleaved schedule of two concurrent `process_recipient_id` tasks
for the same user (balance 50, each withdrawing the FSM-stored amount 30):
`asyncio` can suspend each task only at its `await` points
(`check_user_exists` and `create_withdraw_order`, main.py:423/455), so the
segments embedded as `process_recipient_id_pre` (registration, before the
gateway call) and `process_recipient_id_post` (commit, after the response)
are the atomic units; the schedule pre-A, pre-B, post-A, post-B is a legal
interleaving in which both gateway calls are answered with code 1000. -/
def c10raceFinalState : SharedData :=
  process_recipient_id_post 7 98 30 "USDT" "w2" ⟨1000, "TXB", "1"⟩
    (process_recipient_id_post 7 99 30 "USDT" "w1" ⟨1000, "TXA", "1"⟩
      (process_recipient_id_pre 7 98 30 "USDT" "w2"
        (process_recipient_id_pre 7 99 30 "USDT" "w1" ⟨[(7, ⟨50, []⟩)], []⟩)))

/-! ## Effect characterizations of the shared-data operations -/

theorem get_user_account_fst (s : SharedData) (u : Nat) :
    (get_user_account s u).1 = accOf s u := by
  cases h : alGet s.user_accounts u <;> simp [get_user_account, accOf, h]

theorem alGet_get_user_account (s : SharedData) (u u' : Nat) :
    alGet (get_user_account s u).2.user_accounts u' =
      if u = u' then some (accOf s u) else alGet s.user_accounts u' := by
  cases h : alGet s.user_accounts u with
  | none =>
    simp only [get_user_account, h, accOf, alGet_alSet]
    by_cases hu : u = u' <;> simp [hu, h]
  | some a =>
    simp only [get_user_account, h, accOf]
    by_cases hu : u = u'
    · subst hu
      simp [h]
    · simp [hu]

theorem accOf_get_user_account (s : SharedData) (u u' : Nat) :
    accOf (get_user_account s u).2 u' = accOf s u' := by
  unfold accOf
  rw [alGet_get_user_account]
  by_cases h : u = u' <;> simp [h, accOf]

theorem pending_get_user_account (s : SharedData) (u : Nat) :
    (get_user_account s u).2.pending_orders = s.pending_orders := by
  cases h : alGet s.user_accounts u <;> simp [get_user_account, h]

theorem accOf_update_user_balance (s : SharedData) (u : Nat) (amt : ℚ) (u' : Nat) :
    accOf (update_user_balance s u amt) u' =
      if u = u' then { accOf s u with balance := (accOf s u).balance + amt }
      else accOf s u' := by
  unfold update_user_balance
  simp only [accOf, alGet_alSet, get_user_account_fst]
  by_cases h : u = u'
  · simp [h, accOf]
  · simp only [if_neg h, alGet_get_user_account, accOf]

theorem pending_update_user_balance (s : SharedData) (u : Nat) (amt : ℚ) :
    (update_user_balance s u amt).pending_orders = s.pending_orders := by
  unfold update_user_balance
  simp [pending_get_user_account]

theorem accOf_add_transaction (s : SharedData) (u : Nat) (ty : String) (amt : ℚ)
    (st oid note : String) (u' : Nat) :
    accOf (add_transaction s u ty amt st oid note) u' =
      if u = u' then
        { accOf s u with
            transactions := (accOf s u).transactions ++ [⟨ty, amt, some st, oid, note⟩] }
      else accOf s u' := by
  unfold add_transaction
  simp only [accOf, alGet_alSet, get_user_account_fst]
  by_cases h : u = u'
  · simp [h, accOf]
  · simp only [if_neg h, alGet_get_user_account, accOf]

theorem pending_add_transaction (s : SharedData) (u : Nat) (ty : String) (amt : ℚ)
    (st oid note : String) :
    (add_transaction s u ty amt st oid note).pending_orders = s.pending_orders := by
  unfold add_transaction
  simp [pending_get_user_account]

theorem accOf_update_transaction_status (s : SharedData) (u : Nat) (oid : String)
    (st : Option String) (u' : Nat) :
    accOf (update_transaction_status s u oid st) u' =
      if u = u' then
        { accOf s u with transactions := setFirstStatus oid st (accOf s u).transactions }
      else accOf s u' := by
  unfold update_transaction_status
  simp only [accOf, alGet_alSet, get_user_account_fst]
  by_cases h : u = u'
  · simp [h, accOf]
  · simp only [if_neg h, alGet_get_user_account, accOf]

theorem pending_update_transaction_status (s : SharedData) (u : Nat) (oid : String)
    (st : Option String) :
    (update_transaction_status s u oid st).pending_orders = s.pending_orders := by
  unfold update_transaction_status
  simp [pending_get_user_account]

theorem get_pending_order_add (s : SharedData) (oid : String) (o : PendingOrder)
    (oid' : String) :
    get_pending_order (add_pending_order s oid o) oid' =
      if oid = oid' then some o else get_pending_order s oid' := by
  simp [get_pending_order, add_pending_order, alGet_alSet]

theorem get_pending_order_remove (s : SharedData) (oid oid' : String) :
    get_pending_order (remove_pending_order s oid) oid' =
      if oid = oid' then none else get_pending_order s oid' := by
  simp [get_pending_order, remove_pending_order, alGet_alErase]

theorem accOf_add_pending_order (s : SharedData) (oid : String) (o : PendingOrder)
    (u : Nat) : accOf (add_pending_order s oid o) u = accOf s u := rfl

theorem accOf_remove_pending_order (s : SharedData) (oid : String) (u : Nat) :
    accOf (remove_pending_order s oid) u = accOf s u := rfl

theorem balOf_update_user_balance (s : SharedData) (u : Nat) (amt : ℚ) (u' : Nat) :
    balOf (update_user_balance s u amt) u' =
      if u = u' then balOf s u' + amt else balOf s u' := by
  unfold balOf
  rw [accOf_update_user_balance]
  by_cases h : u = u' <;> simp [h]

/-! ## Callback-handler characterizations -/

theorem handle_deposit_callback_unknown (cb : CallbackData) (s : SharedData)
    (oid : String) (h1 : cb.userOrder = some oid)
    (h2 : get_pending_order s oid = none) :
    handle_deposit_callback cb s = s := by
  simp [handle_deposit_callback, h1, h2]

theorem handle_withdraw_callback_unknown (cb : CallbackData) (s : SharedData)
    (oid : String) (h1 : cb.userOrder = some oid)
    (h2 : get_pending_order s oid = none) :
    handle_withdraw_callback cb s = s := by
  simp [handle_withdraw_callback, h1, h2]

theorem handle_deposit_callback_none (cb : CallbackData) (s : SharedData)
    (h1 : cb.userOrder = none) : handle_deposit_callback cb s = s := by
  simp [handle_deposit_callback, h1]

theorem handle_withdraw_callback_none (cb : CallbackData) (s : SharedData)
    (h1 : cb.userOrder = none) : handle_withdraw_callback cb s = s := by
  simp [handle_withdraw_callback, h1]

theorem handle_deposit_eq (cb : CallbackData) (s : SharedData) (oid : String)
    (ord : PendingOrder) (h1 : cb.userOrder = some oid)
    (h2 : get_pending_order s oid = some ord)
    (h3 : cb.orderStatus.getD "success" = "success") :
    handle_deposit_callback cb s =
      remove_pending_order
        (update_transaction_status
          (update_user_balance (get_user_account s ord.user_id).2 ord.user_id
            (cb.amount.getD 0))
          ord.user_id oid (some "success")) oid := by
  simp [handle_deposit_callback, h1, h2, h3]

theorem handle_withdraw_eq_fail (cb : CallbackData) (s : SharedData) (oid : String)
    (ord : PendingOrder) (h1 : cb.userOrder = some oid)
    (h2 : get_pending_order s oid = some ord)
    (h3 : cb.orderStatus = some "fail") :
    handle_withdraw_callback cb s =
      remove_pending_order
        (update_user_balance
          (update_transaction_status (get_user_account s ord.user_id).2 ord.user_id
            oid (some "fail"))
          ord.user_id ord.amount) oid := by
  simp [handle_withdraw_callback, h1, h2, h3]

theorem setFirstStatus_split (pre : List Transaction) (tx : Transaction)
    (post : List Transaction) (oid : String) (st : Option String)
    (hpre : ∀ t ∈ pre, t.order_id ≠ oid) (htx : tx.order_id = oid) :
    setFirstStatus oid st (pre ++ tx :: post) =
      pre ++ { tx with status := st } :: post := by
  induction pre with
  | nil => simp [setFirstStatus, htx]
  | cons t rest ih =>
    have ht : t.order_id ≠ oid := hpre t (by simp)
    simp only [List.cons_append, setFirstStatus, if_neg ht, List.append_eq]
    rw [ih (fun t' ht' => hpre t' (by simp [ht']))]

theorem balOf_get_user_account (s : SharedData) (u u' : Nat) :
    balOf (get_user_account s u).2 u' = balOf s u' := by
  unfold balOf
  rw [accOf_get_user_account]

theorem balOf_add_transaction (s : SharedData) (u : Nat) (ty : String) (amt : ℚ)
    (st oid note : String) (u' : Nat) :
    balOf (add_transaction s u ty amt st oid note) u' = balOf s u' := by
  unfold balOf
  rw [accOf_add_transaction]
  by_cases h : u = u' <;> simp [h]

theorem balOf_update_transaction_status (s : SharedData) (u : Nat) (oid : String)
    (st : Option String) (u' : Nat) :
    balOf (update_transaction_status s u oid st) u' = balOf s u' := by
  unfold balOf
  rw [accOf_update_transaction_status]
  by_cases h : u = u' <;> simp [h]

theorem balOf_add_pending_order (s : SharedData) (oid : String) (o : PendingOrder)
    (u : Nat) : balOf (add_pending_order s oid o) u = balOf s u := rfl

theorem balOf_remove_pending_order (s : SharedData) (oid : String) (u : Nat) :
    balOf (remove_pending_order s oid) u = balOf s u := rfl

theorem get_pending_order_get_user_account (s : SharedData) (u : Nat) (oid : String) :
    get_pending_order (get_user_account s u).2 oid = get_pending_order s oid := by
  simp [get_pending_order, pending_get_user_account]

theorem get_pending_order_add_transaction (s : SharedData) (u : Nat) (ty : String)
    (amt : ℚ) (st oid note : String) (oid' : String) :
    get_pending_order (add_transaction s u ty amt st oid note) oid' =
      get_pending_order s oid' := by
  simp [get_pending_order, pending_add_transaction]

theorem get_pending_order_update_user_balance (s : SharedData) (u : Nat) (amt : ℚ)
    (oid : String) :
    get_pending_order (update_user_balance s u amt) oid = get_pending_order s oid := by
  simp [get_pending_order, pending_update_user_balance]

theorem get_pending_order_update_transaction_status (s : SharedData) (u : Nat)
    (oid : String) (st : Option String) (oid' : String) :
    get_pending_order (update_transaction_status s u oid st) oid' =
      get_pending_order s oid' := by
  simp [get_pending_order, pending_update_transaction_status]

theorem handle_deposit_eq_nonsuccess (cb : CallbackData) (s : SharedData)
    (oid : String) (ord : PendingOrder) (h1 : cb.userOrder = some oid)
    (h2 : get_pending_order s oid = some ord)
    (h3 : ¬ cb.orderStatus.getD "success" = "success") :
    handle_deposit_callback cb s =
      remove_pending_order (get_user_account s ord.user_id).2 oid := by
  simp [handle_deposit_callback, h1, h2, h3]

theorem handle_withdraw_eq_nonfail (cb : CallbackData) (s : SharedData)
    (oid : String) (ord : PendingOrder) (h1 : cb.userOrder = some oid)
    (h2 : get_pending_order s oid = some ord)
    (h3 : ¬ cb.orderStatus = some "fail") :
    handle_withdraw_callback cb s =
      remove_pending_order
        (update_transaction_status (get_user_account s ord.user_id).2 ord.user_id
          oid cb.orderStatus) oid := by
  simp [handle_withdraw_callback, h1, h2, h3]

/-! ## Characterizations of the order-creation flows -/

theorem process_recipient_id_rejected (u : Nat) (r : Int) (amount : ℚ)
    (coin oid : String) (resp : KKPayResponse) (s : SharedData)
    (hcode : resp.code ≠ 1000) :
    process_recipient_id u r true amount coin oid resp s =
      process_recipient_id_pre u r amount coin oid s := by
  simp [process_recipient_id, process_recipient_id_post, hcode]

theorem accOf_process_recipient_id_pre (u : Nat) (r : Int) (amount : ℚ)
    (coin oid : String) (s : SharedData) (u' : Nat) :
    accOf (process_recipient_id_pre u r amount coin oid s) u' = accOf s u' := rfl

theorem accOf_set_order_txid (s : SharedData) (oid txid : String) (u : Nat) :
    accOf (set_order_txid s oid txid) u = accOf s u := by
  unfold set_order_txid
  cases get_pending_order s oid <;> rfl

theorem accOf_set_order_txid_fee (s : SharedData) (oid txid fee : String) (u : Nat) :
    accOf (set_order_txid_fee s oid txid fee) u = accOf s u := by
  unfold set_order_txid_fee
  cases get_pending_order s oid <;> rfl

theorem get_pending_order_set_order_txid (s : SharedData) (oid txid : String)
    (w : PendingOrder) (hw : get_pending_order s oid = some w) (oid' : String) :
    get_pending_order (set_order_txid s oid txid) oid' =
      if oid = oid' then some { w with txid := some txid }
      else get_pending_order s oid' := by
  unfold set_order_txid
  rw [hw]
  exact get_pending_order_add s oid _ oid'

theorem get_pending_order_set_order_txid_fee (s : SharedData) (oid txid fee : String)
    (w : PendingOrder) (hw : get_pending_order s oid = some w) (oid' : String) :
    get_pending_order (set_order_txid_fee s oid txid fee) oid' =
      if oid = oid' then some { w with txid := some txid, fee := some fee }
      else get_pending_order s oid' := by
  unfold set_order_txid_fee
  rw [hw]
  exact get_pending_order_add s oid _ oid'

theorem accOf_deduct_balance (s : SharedData) (u : Nat) (amount : ℚ) (u' : Nat) :
    accOf (deduct_balance s u amount) u' =
      if u = u' then { accOf s u with balance := (accOf s u).balance - amount }
      else accOf s u' := by
  unfold deduct_balance
  simp only [accOf, alGet_alSet, get_user_account_fst]
  by_cases h : u = u'
  · simp [h, accOf]
  · simp only [if_neg h, alGet_get_user_account, accOf]

theorem pending_deduct_balance (s : SharedData) (u : Nat) (amount : ℚ) :
    (deduct_balance s u amount).pending_orders = s.pending_orders := by
  unfold deduct_balance
  simp [pending_get_user_account]

theorem get_pending_order_deduct_balance (s : SharedData) (u : Nat) (amount : ℚ)
    (oid : String) :
    get_pending_order (deduct_balance s u amount) oid = get_pending_order s oid := by
  simp [get_pending_order, pending_deduct_balance]

theorem process_recipient_id_accepted (u : Nat) (r : Int) (amount : ℚ)
    (coin oid : String) (resp : KKPayResponse) (s : SharedData)
    (hcode : resp.code = 1000) :
    process_recipient_id u r true amount coin oid resp s =
      add_transaction
        (deduct_balance
          (set_order_txid_fee
            (process_recipient_id_pre u r amount coin oid s) oid resp.txid resp.fee)
          u amount)
        u "withdraw" (-amount) "pending" oid
        ("提现 " ++ coin ++ " 到 " ++ toString r) := by
  simp [process_recipient_id, process_recipient_id_post, hcode]

theorem accOf_process_recipient_id (u : Nat) (r : Int) (amount : ℚ)
    (coin oid : String) (resp : KKPayResponse) (s : SharedData)
    (hcode : resp.code = 1000) (u' : Nat) :
    accOf (process_recipient_id u r true amount coin oid resp s) u' =
      if u = u' then
        ⟨(accOf s u).balance - amount,
         (accOf s u).transactions ++
           [⟨"withdraw", -amount, some "pending", oid,
             "提现 " ++ coin ++ " 到 " ++ toString r⟩]⟩
      else accOf s u' := by
  rw [process_recipient_id_accepted u r amount coin oid resp s hcode]
  rw [accOf_add_transaction]
  by_cases h : u = u'
  · subst h
    simp [accOf_deduct_balance, accOf_set_order_txid_fee,
      accOf_process_recipient_id_pre]
  · simp only [if_neg h]
    rw [accOf_deduct_balance]
    simp [if_neg h, accOf_set_order_txid_fee, accOf_process_recipient_id_pre]

theorem pending_process_recipient_id (u : Nat) (r : Int) (amount : ℚ)
    (coin oid : String) (resp : KKPayResponse) (s : SharedData)
    (hcode : resp.code = 1000) (oid' : String) :
    get_pending_order (process_recipient_id u r true amount coin oid resp s) oid' =
      if oid = oid' then
        some ⟨u, some r, amount, coin, "withdraw", "pending",
              some resp.txid, some resp.fee⟩
      else get_pending_order s oid' := by
  rw [process_recipient_id_accepted u r amount coin oid resp s hcode]
  rw [get_pending_order_add_transaction, get_pending_order_deduct_balance]
  rw [get_pending_order_set_order_txid_fee _ _ _ _
    ⟨u, some r, amount, coin, "withdraw", "pending", none, none⟩
    (by simp [process_recipient_id_pre, get_pending_order_add]) oid']
  by_cases h : oid = oid'
  · simp [h]
  · simp [h, process_recipient_id_pre, get_pending_order_add]

theorem balOf_process_recipient_id (u : Nat) (r : Int) (amount : ℚ)
    (coin oid : String) (resp : KKPayResponse) (s : SharedData)
    (hcode : resp.code = 1000) (u' : Nat) :
    balOf (process_recipient_id u r true amount coin oid resp s) u' =
      if u = u' then balOf s u' - amount else balOf s u' := by
  unfold balOf
  rw [accOf_process_recipient_id u r amount coin oid resp s hcode]
  by_cases h : u = u' <;> simp [h]

theorem txsOf_process_recipient_id (u : Nat) (r : Int) (amount : ℚ)
    (coin oid : String) (resp : KKPayResponse) (s : SharedData)
    (hcode : resp.code = 1000) :
    txsOf (process_recipient_id u r true amount coin oid resp s) u =
      txsOf s u ++
        [⟨"withdraw", -amount, some "pending", oid,
          "提现 " ++ coin ++ " 到 " ++ toString r⟩] := by
  unfold txsOf
  rw [accOf_process_recipient_id u r amount coin oid resp s hcode]
  simp

theorem pending_process_recipient_id_pre (u : Nat) (r : Int) (amount : ℚ)
    (coin oid : String) (s : SharedData) (oid' : String) :
    get_pending_order (process_recipient_id_pre u r amount coin oid s) oid' =
      if oid = oid' then
        some ⟨u, some r, amount, coin, "withdraw", "pending", none, none⟩
      else get_pending_order s oid' :=
  get_pending_order_add s oid _ oid'

theorem balOf_set_order_txid (s : SharedData) (oid txid : String) (u : Nat) :
    balOf (set_order_txid s oid txid) u = balOf s u := by
  simp [balOf, accOf_set_order_txid]

theorem process_topup_amount_small (u : Nat) (amount : ℚ)
    (coin oid : String) (resp : KKPayResponse) (s : SharedData)
    (h : amount < 1) : process_topup_amount u amount coin oid resp s = s := by
  simp [process_topup_amount, h]

theorem process_topup_amount_rejected (u : Nat) (amount : ℚ)
    (coin oid : String) (resp : KKPayResponse) (s : SharedData)
    (h1 : ¬ amount < 1) (hcode : resp.code ≠ 1000) :
    process_topup_amount u amount coin oid resp s =
      add_pending_order s oid ⟨u, none, amount, coin, "topup", "pending", none, none⟩ := by
  simp [process_topup_amount, h1, hcode]

theorem balOf_process_topup_amount (u : Nat) (amount : ℚ)
    (coin oid : String) (resp : KKPayResponse) (s : SharedData) (u' : Nat) :
    balOf (process_topup_amount u amount coin oid resp s) u' = balOf s u' := by
  unfold process_topup_amount
  by_cases h1 : amount < 1
  · simp [h1]
  · by_cases hc : resp.code = 1000
    · simp [h1, hc, balOf_add_transaction, balOf_set_order_txid, balOf_add_pending_order]
    · simp [h1, hc, balOf_add_pending_order]

theorem pending_process_topup_amount (u : Nat) (amount : ℚ)
    (coin oid : String) (resp : KKPayResponse) (s : SharedData)
    (h1 : ¬ amount < 1) (oid' : String) :
    get_pending_order (process_topup_amount u amount coin oid resp s) oid' =
      if oid = oid' then
        some ⟨u, none, amount, coin, "topup", "pending",
              if resp.code = 1000 then some resp.txid else none, none⟩
      else get_pending_order s oid' := by
  unfold process_topup_amount
  by_cases hc : resp.code = 1000
  · simp only [if_neg h1, if_pos hc]
    rw [get_pending_order_add_transaction]
    rw [get_pending_order_set_order_txid _ _ _
      ⟨u, none, amount, coin, "topup", "pending", none, none⟩
      (by simp [get_pending_order_add]) oid']
    by_cases h : oid = oid'
    · simp [h, hc]
    · simp [h, get_pending_order_add]
  · simp only [if_neg h1, if_neg hc]
    rw [get_pending_order_add]

theorem process_withdraw_amount_spec (u : Nat) (amount : ℚ) (s : SharedData) :
    (∀ u', accOf (process_withdraw_amount u amount s).1 u' = accOf s u')
    ∧ (process_withdraw_amount u amount s).1.pending_orders = s.pending_orders
    ∧ ((process_withdraw_amount u amount s).2 = true →
        1 ≤ amount ∧ amount ≤ balOf s u) := by
  unfold process_withdraw_amount
  by_cases h1 : amount < 1
  · simp [h1]
  · simp only [if_neg h1]
    by_cases h2 : ((get_user_account s u).1).balance < amount
    · simp only [if_pos h2]
      exact ⟨fun u' => accOf_get_user_account s u u',
        pending_get_user_account s u, by simp⟩
    · simp only [if_neg h2]
      refine ⟨fun u' => accOf_get_user_account s u u',
        pending_get_user_account s u, fun _ => ⟨by linarith, ?_⟩⟩
      rw [get_user_account_fst] at h2
      unfold balOf
      linarith

theorem getFSM_alSet (sh : SharedData) (l : List (Nat × FSMState)) (u : Nat)
    (st : FSMState) (u' : Nat) :
    getFSM ⟨sh, alSet l u st⟩ u' = if u = u' then st else getFSM ⟨sh, l⟩ u' := by
  unfold getFSM
  simp only [alGet_alSet]
  by_cases h : u = u' <;> simp [h]

/-! ## Claims -/

/-- C5: once an order has been removed from the pending-order set (it reached
a terminal outcome), any subsequent settlement callback for the same
`orderId` — whatever outcome it carries — is a no-op on both handlers: the
whole shared state (balances, transactions, pending orders) is unchanged. -/
theorem c5_terminal_order_callbacks_are_noops (cb : CallbackData) (s : SharedData)
    (oid : String) (h1 : cb.userOrder = some oid)
    (h2 : get_pending_order s oid = none) :
    handle_deposit_callback cb s = s ∧ handle_withdraw_callback cb s = s :=
  ⟨handle_deposit_callback_unknown cb s oid h1 h2,
   handle_withdraw_callback_unknown cb s oid h1 h2⟩

/-- Witness for C5 at a concrete input: a settled-and-removed order `w1`
whose user still has an account; a late `fail` callback changes nothing. -/
theorem c5_witness :
    handle_deposit_callback ⟨some "deposit", some "w1", some 25, some "fail"⟩
        ⟨[(7, ⟨50, []⟩)], []⟩ = ⟨[(7, ⟨50, []⟩)], []⟩
    ∧ handle_withdraw_callback ⟨some "deposit", some "w1", some 25, some "fail"⟩
        ⟨[(7, ⟨50, []⟩)], []⟩ = ⟨[(7, ⟨50, []⟩)], []⟩ :=
  c5_terminal_order_callbacks_are_noops _ _ "w1" rfl rfl

/-- C7: an inbound callback whose sender-identity header differs from the
configured merchant id, or whose signature header fails verification over the
raw body, is answered with HTTP 401 and leaves the state untouched; the
result does not depend on the decode of the payload (`decoded` is universally
quantified), so no decoding is consulted. -/
theorem c7_auth_failure_rejected_without_mutation
    (merchant_id signature : Option String) (body : List Nat)
    (decoded : Option CallbackData) (s : SharedData)
    (h : merchant_id ≠ some KKPAY_MERCHANT_ID
        ∨ verify_signature body signature = false) :
    kkpay_webhook_handler merchant_id signature body decoded s =
      (HttpStatus.unauthorized401, s) := by
  unfold kkpay_webhook_handler
  rcases h with h | h
  · rw [if_pos h]
  · by_cases hm : merchant_id = some KKPAY_MERCHANT_ID
    · rw [if_neg (fun hne => hne hm), if_pos h]
    · rw [if_pos hm]

/-- Witness for C7 at a concrete input: wrong merchant id, arbitrary body and
decode result; the response is 401 and the state (one account, one pending
order) is returned unchanged. -/
theorem c7_witness :
    kkpay_webhook_handler (some "intruder") (some "sig") [1, 2, 3]
        (some ⟨some "deposit", some "t1", some 5, some "success"⟩)
        ⟨[(7, ⟨50, []⟩)], [("t1", ⟨7, none, 5, "USDT", "topup", "pending", none, none⟩)]⟩ =
      (HttpStatus.unauthorized401,
        ⟨[(7, ⟨50, []⟩)], [("t1", ⟨7, none, 5, "USDT", "topup", "pending", none, none⟩)]⟩) :=
  c7_auth_failure_rejected_without_mutation (some "intruder") (some "sig") [1, 2, 3]
    (some ⟨some "deposit", some "t1", some 5, some "success"⟩) _
    (Or.inl (by simp [KKPAY_MERCHANT_ID]))

/-- C8: signature verification accepts `(p, s)` exactly when `s` is the
base64 rendering of the SHA-256 digest of `p` concatenated with the shared
secret; with bot and webhook server configured with the same secret,
`verify_signature p (generate_sign p)` holds for every payload `p`; and an
absent (`None`) signature yields `false` rather than an exception. -/
theorem c8_signature_scheme (api : KKPayAPI) (p : List Nat) (sg : String)
    (hsec : api.secret = KKPAY_SECRET) :
    (verify_signature p (some sg) = true
      ↔ sg = base64encode (sha256 (p ++ KKPAY_SECRET)))
    ∧ verify_signature p (some (api.generate_sign p)) = true
    ∧ verify_signature p none = false := by
  refine ⟨?_, ?_, rfl⟩
  · unfold verify_signature
    rw [beq_iff_eq]
    exact eq_comm
  · unfold verify_signature KKPayAPI.generate_sign
    rw [hsec]
    exact beq_self_eq_true _

/-- Witness for C8 at a concrete input: an api object carrying the configured
secret and the byte string `"payload"`. -/
theorem c8_witness :
    (verify_signature (utf8Bytes "payload") (some "x") = true
      ↔ "x" = base64encode (sha256 (utf8Bytes "payload" ++ KKPAY_SECRET)))
    ∧ verify_signature (utf8Bytes "payload")
        (some (KKPayAPI.generate_sign ⟨"demo_merchant_123", KKPAY_SECRET⟩
          (utf8Bytes "payload"))) = true
    ∧ verify_signature (utf8Bytes "payload") none = false :=
  c8_signature_scheme ⟨"demo_merchant_123", KKPAY_SECRET⟩ (utf8Bytes "payload") "x" rfl

/-- C9: for a pending order and a success deposit callback on its id, the
credited amount is the callback payload's `amount` field with default 0 —
the stored order's own amount does not occur in the balance change — and a
success callback with no amount field credits nothing while still removing
the pending order. -/
theorem c9_credit_comes_from_callback_amount (cb : CallbackData) (s : SharedData)
    (oid : String) (ord : PendingOrder) (h1 : cb.userOrder = some oid)
    (h2 : get_pending_order s oid = some ord)
    (h3 : cb.orderStatus.getD "success" = "success") :
    balOf (handle_deposit_callback cb s) ord.user_id =
      balOf s ord.user_id + cb.amount.getD 0
    ∧ (cb.amount = none →
        balOf (handle_deposit_callback cb s) ord.user_id = balOf s ord.user_id)
    ∧ get_pending_order (handle_deposit_callback cb s) oid = none := by
  rw [handle_deposit_eq cb s oid ord h1 h2 h3]
  have hbal :
      balOf (remove_pending_order (update_transaction_status
        (update_user_balance (get_user_account s ord.user_id).2 ord.user_id
          (cb.amount.getD 0)) ord.user_id oid (some "success")) oid) ord.user_id =
      balOf s ord.user_id + cb.amount.getD 0 := by
    rw [balOf_remove_pending_order, balOf_update_transaction_status,
      balOf_update_user_balance]
    simp [balOf_get_user_account]
  refine ⟨hbal, ?_, ?_⟩
  · intro hnone
    rw [hbal, hnone]
    simp
  · rw [get_pending_order_remove]
    simp

/-- Witness for C9 at a concrete input: user 7 has balance 50 and pending
order `t1` over 40 units; a success callback carrying *no* amount field
credits 0 (balance stays 50) and removes the order. -/
theorem c9_witness :
    balOf (handle_deposit_callback ⟨some "deposit", some "t1", none, some "success"⟩
        ⟨[(7, ⟨50, []⟩)], [("t1", ⟨7, none, 40, "USDT", "topup", "pending", none, none⟩)]⟩) 7 =
      balOf ⟨[(7, ⟨50, []⟩)], [("t1", ⟨7, none, 40, "USDT", "topup", "pending", none, none⟩)]⟩ 7
        + (none : Option ℚ).getD 0
    ∧ ((none : Option ℚ) = none →
        balOf (handle_deposit_callback ⟨some "deposit", some "t1", none, some "success"⟩
          ⟨[(7, ⟨50, []⟩)], [("t1", ⟨7, none, 40, "USDT", "topup", "pending", none, none⟩)]⟩) 7 =
        balOf ⟨[(7, ⟨50, []⟩)], [("t1", ⟨7, none, 40, "USDT", "topup", "pending", none, none⟩)]⟩ 7)
    ∧ get_pending_order (handle_deposit_callback ⟨some "deposit", some "t1", none, some "success"⟩
        ⟨[(7, ⟨50, []⟩)], [("t1", ⟨7, none, 40, "USDT", "topup", "pending", none, none⟩)]⟩) "t1" = none :=
  c9_credit_comes_from_callback_amount ⟨some "deposit", some "t1", none, some "success"⟩
    ⟨[(7, ⟨50, []⟩)], [("t1", ⟨7, none, 40, "USDT", "topup", "pending", none, none⟩)]⟩
    "t1" ⟨7, none, 40, "USDT", "topup", "pending", none, none⟩ rfl rfl rfl

theorem txsOf_get_user_account (s : SharedData) (u u' : Nat) :
    txsOf (get_user_account s u).2 u' = txsOf s u' := by
  unfold txsOf
  rw [accOf_get_user_account]

theorem txsOf_update_user_balance (s : SharedData) (u : Nat) (amt : ℚ) (u' : Nat) :
    txsOf (update_user_balance s u amt) u' = txsOf s u' := by
  unfold txsOf
  rw [accOf_update_user_balance]
  by_cases h : u = u' <;> simp [h]

theorem txsOf_update_transaction_status_self (s : SharedData) (u : Nat)
    (oid : String) (st : Option String) :
    txsOf (update_transaction_status s u oid st) u =
      setFirstStatus oid st (txsOf s u) := by
  unfold txsOf
  rw [accOf_update_transaction_status]
  simp

theorem txsOf_remove_pending_order (s : SharedData) (oid : String) (u : Nat) :
    txsOf (remove_pending_order s oid) u = txsOf s u := rfl

/-- C1: a deposit success callback for a pending order credits the owning
user's balance with the callback amount, marks the order's transaction
`success`, and removes the order from the pending set; since the order is
gone, any further number of deliveries of the identical callback is the
identity on the state. -/
theorem c1_deposit_settled_exactly_once (cb : CallbackData) (s : SharedData)
    (oid : String) (ord : PendingOrder) (pre post : List Transaction)
    (tx : Transaction)
    (h1 : cb.userOrder = some oid)
    (h2 : get_pending_order s oid = some ord)
    (hdep : ord.otype = "topup")
    (h3 : cb.orderStatus = some "success")
    (hsplit : txsOf s ord.user_id = pre ++ tx :: post)
    (hpre : ∀ t ∈ pre, t.order_id ≠ oid)
    (htx : tx.order_id = oid) :
    balOf (handle_deposit_callback cb s) ord.user_id =
      balOf s ord.user_id + cb.amount.getD 0
    ∧ txsOf (handle_deposit_callback cb s) ord.user_id =
        pre ++ { tx with status := some "success" } :: post
    ∧ get_pending_order (handle_deposit_callback cb s) oid = none
    ∧ ∀ n, (handle_deposit_callback cb)^[n] (handle_deposit_callback cb s) =
        handle_deposit_callback cb s := by
  have h3' : cb.orderStatus.getD "success" = "success" := by
    rw [h3]
    rfl
  have heq := handle_deposit_eq cb s oid ord h1 h2 h3'
  have hpend : get_pending_order (handle_deposit_callback cb s) oid = none := by
    rw [heq, get_pending_order_remove]
    simp
  refine ⟨?_, ?_, hpend, ?_⟩
  · rw [heq, balOf_remove_pending_order, balOf_update_transaction_status,
      balOf_update_user_balance]
    simp [balOf_get_user_account]
  · rw [heq]
    rw [txsOf_remove_pending_order, txsOf_update_transaction_status_self,
      txsOf_update_user_balance, txsOf_get_user_account, hsplit]
    exact setFirstStatus_split pre tx post oid (some "success") hpre htx
  · intro n
    exact Function.iterate_fixed
      (handle_deposit_callback_unknown cb _ oid h1 hpend) n

/-- Witness for C1 at a concrete input: user 7, balance 50, pending topup
order `t1` with its pending transaction; a success callback for 40 units
yields balance 90, transaction `success`, order removed, and three further
deliveries change nothing. -/
theorem c1_witness :
    balOf (handle_deposit_callback ⟨some "deposit", some "t1", some 40, some "success"⟩
        ⟨[(7, ⟨50, [⟨"topup", 40, some "pending", "t1", "充值 USDT"⟩]⟩)],
          [("t1", ⟨7, none, 40, "USDT", "topup", "pending", none, none⟩)]⟩) 7 =
      balOf ⟨[(7, ⟨50, [⟨"topup", 40, some "pending", "t1", "充值 USDT"⟩]⟩)],
          [("t1", ⟨7, none, 40, "USDT", "topup", "pending", none, none⟩)]⟩ 7
        + (some (40 : ℚ)).getD 0
    ∧ txsOf (handle_deposit_callback ⟨some "deposit", some "t1", some 40, some "success"⟩
        ⟨[(7, ⟨50, [⟨"topup", 40, some "pending", "t1", "充值 USDT"⟩]⟩)],
          [("t1", ⟨7, none, 40, "USDT", "topup", "pending", none, none⟩)]⟩) 7 =
      [] ++ ⟨"topup", 40, some "success", "t1", "充值 USDT"⟩ :: []
    ∧ get_pending_order (handle_deposit_callback ⟨some "deposit", some "t1", some 40, some "success"⟩
        ⟨[(7, ⟨50, [⟨"topup", 40, some "pending", "t1", "充值 USDT"⟩]⟩)],
          [("t1", ⟨7, none, 40, "USDT", "topup", "pending", none, none⟩)]⟩) "t1" = none
    ∧ (handle_deposit_callback ⟨some "deposit", some "t1", some 40, some "success"⟩)^[3]
        (handle_deposit_callback ⟨some "deposit", some "t1", some 40, some "success"⟩
          ⟨[(7, ⟨50, [⟨"topup", 40, some "pending", "t1", "充值 USDT"⟩]⟩)],
            [("t1", ⟨7, none, 40, "USDT", "topup", "pending", none, none⟩)]⟩) =
      handle_deposit_callback ⟨some "deposit", some "t1", some 40, some "success"⟩
        ⟨[(7, ⟨50, [⟨"topup", 40, some "pending", "t1", "充值 USDT"⟩]⟩)],
          [("t1", ⟨7, none, 40, "USDT", "topup", "pending", none, none⟩)]⟩ := by
  have h := c1_deposit_settled_exactly_once
    ⟨some "deposit", some "t1", some 40, some "success"⟩
    ⟨[(7, ⟨50, [⟨"topup", 40, some "pending", "t1", "充值 USDT"⟩]⟩)],
      [("t1", ⟨7, none, 40, "USDT", "topup", "pending", none, none⟩)]⟩
    "t1" ⟨7, none, 40, "USDT", "topup", "pending", none, none⟩
    [] [] ⟨"topup", 40, some "pending", "t1", "充值 USDT"⟩
    rfl rfl rfl rfl (by decide) (by simp) rfl
  exact ⟨h.1, h.2.1, h.2.2.1, h.2.2.2 3⟩

/-- C2: a withdrawal order whose creation the gateway accepts deducts the
amount from the user's balance (`account['balance'] -= amount` inside
`process_recipient_id`); a later `fail` callback restores exactly the
pre-withdrawal balance and sets the withdraw transaction's status to `fail`;
and a duplicate `fail` callback leaves the state unchanged (the order was
removed on first handling), so no additional refund ever happens. -/
theorem c2_withdraw_deduct_then_fail_refunds_exactly (s : SharedData) (u : Nat)
    (r : Int) (amount : ℚ) (coin oid : String) (resp : KKPayResponse)
    (cb : CallbackData)
    (hcode : resp.code = 1000)
    (hfresh : ∀ t ∈ txsOf s u, t.order_id ≠ oid)
    (hcb1 : cb.userOrder = some oid)
    (hcb2 : cb.orderStatus = some "fail") :
    balOf (process_recipient_id u r true amount coin oid resp s) u =
      balOf s u - amount
    ∧ balOf (handle_withdraw_callback cb
        (process_recipient_id u r true amount coin oid resp s)) u = balOf s u
    ∧ txsOf (handle_withdraw_callback cb
        (process_recipient_id u r true amount coin oid resp s)) u =
        txsOf s u ++ [⟨"withdraw", -amount, some "fail", oid,
          "提现 " ++ coin ++ " 到 " ++ toString r⟩]
    ∧ handle_withdraw_callback cb (handle_withdraw_callback cb
        (process_recipient_id u r true amount coin oid resp s)) =
      handle_withdraw_callback cb
        (process_recipient_id u r true amount coin oid resp s) := by
  have hs1bal : balOf (process_recipient_id u r true amount coin oid resp s) u =
      balOf s u - amount := by
    rw [balOf_process_recipient_id u r amount coin oid resp s hcode]
    simp
  have hs1pend : get_pending_order
      (process_recipient_id u r true amount coin oid resp s) oid =
      some ⟨u, some r, amount, coin, "withdraw", "pending",
            some resp.txid, some resp.fee⟩ := by
    rw [pending_process_recipient_id u r amount coin oid resp s hcode]
    simp
  have heq2 := handle_withdraw_eq_fail cb
    (process_recipient_id u r true amount coin oid resp s) oid
    ⟨u, some r, amount, coin, "withdraw", "pending", some resp.txid, some resp.fee⟩
    hcb1 hs1pend hcb2
  have hpend2 : get_pending_order (handle_withdraw_callback cb
      (process_recipient_id u r true amount coin oid resp s)) oid = none := by
    rw [heq2, get_pending_order_remove]
    simp
  refine ⟨hs1bal, ?_, ?_, ?_⟩
  · rw [heq2, balOf_remove_pending_order, balOf_update_user_balance,
      balOf_update_transaction_status, balOf_get_user_account, hs1bal]
    simp
  · rw [heq2, txsOf_remove_pending_order, txsOf_update_user_balance,
      txsOf_update_transaction_status_self, txsOf_get_user_account,
      txsOf_process_recipient_id u r amount coin oid resp s hcode]
    have : txsOf s u ++ [(⟨"withdraw", -amount, some "pending", oid,
        "提现 " ++ coin ++ " 到 " ++ toString r⟩ : Transaction)] =
        txsOf s u ++ (⟨"withdraw", -amount, some "pending", oid,
        "提现 " ++ coin ++ " 到 " ++ toString r⟩ : Transaction) :: [] := rfl
    rw [this, setFirstStatus_split (txsOf s u) _ [] oid (some "fail") hfresh rfl]
  · exact handle_withdraw_callback_unknown cb _ oid hcb1 hpend2

/-- Witness for C2 at a concrete input: user 7 with balance 50 withdraws 30
(gateway accepts): balance 20; the `fail` callback restores 50 exactly and
marks the transaction `fail`; a second identical callback changes nothing. -/
theorem c2_witness :
    balOf (process_recipient_id 7 99 true 30 "USDT" "w1" ⟨1000, "TX", "1"⟩
        ⟨[(7, ⟨50, []⟩)], []⟩) 7 = balOf ⟨[(7, ⟨50, []⟩)], []⟩ 7 - 30
    ∧ balOf (handle_withdraw_callback ⟨some "withdraw", some "w1", some 30, some "fail"⟩
        (process_recipient_id 7 99 true 30 "USDT" "w1" ⟨1000, "TX", "1"⟩
          ⟨[(7, ⟨50, []⟩)], []⟩)) 7 = balOf ⟨[(7, ⟨50, []⟩)], []⟩ 7
    ∧ txsOf (handle_withdraw_callback ⟨some "withdraw", some "w1", some 30, some "fail"⟩
        (process_recipient_id 7 99 true 30 "USDT" "w1" ⟨1000, "TX", "1"⟩
          ⟨[(7, ⟨50, []⟩)], []⟩)) 7 =
        txsOf ⟨[(7, ⟨50, []⟩)], []⟩ 7 ++
          [⟨"withdraw", -30, some "fail", "w1",
            "提现 " ++ "USDT" ++ " 到 " ++ toString (99 : Int)⟩]
    ∧ handle_withdraw_callback ⟨some "withdraw", some "w1", some 30, some "fail"⟩
        (handle_withdraw_callback ⟨some "withdraw", some "w1", some 30, some "fail"⟩
          (process_recipient_id 7 99 true 30 "USDT" "w1" ⟨1000, "TX", "1"⟩
            ⟨[(7, ⟨50, []⟩)], []⟩)) =
      handle_withdraw_callback ⟨some "withdraw", some "w1", some 30, some "fail"⟩
        (process_recipient_id 7 99 true 30 "USDT" "w1" ⟨1000, "TX", "1"⟩
          ⟨[(7, ⟨50, []⟩)], []⟩) := by
  have h := c2_withdraw_deduct_then_fail_refunds_exactly ⟨[(7, ⟨50, []⟩)], []⟩ 7 99
    30 "USDT" "w1" ⟨1000, "TX", "1"⟩ ⟨some "withdraw", some "w1", some 30, some "fail"⟩
    rfl (by simp [txsOf, accOf, alGet]) rfl rfl
  exact ⟨h.1, h.2.1, h.2.2.1, h.2.2.2⟩

/-- C3 counterexample: with user 7 at balance 50 withdrawing 30, the state in
which the payment gateway is invoked (after `add_pending_order`, before
`create_withdraw_order`, main.py:445-455) still has balance 50 — not the
claimed reserved 20 — and no pending debit transaction; and after a gateway
rejection no transaction exists at all, so nothing is "refunded and marked
failed".  The balance reservation therefore does not precede the gateway
call. -/
theorem c3_counterexample :
    balOf (process_recipient_id_pre 7 99 30 "USDT" "w1" ⟨[(7, ⟨50, []⟩)], []⟩) 7 = 50
    ∧ ¬ balOf (process_recipient_id_pre 7 99 30 "USDT" "w1" ⟨[(7, ⟨50, []⟩)], []⟩) 7 = 20
    ∧ txsOf (process_recipient_id_pre 7 99 30 "USDT" "w1" ⟨[(7, ⟨50, []⟩)], []⟩) 7 = []
    ∧ txsOf (process_recipient_id 7 99 true 30 "USDT" "w1" ⟨9999, "", "0"⟩
        ⟨[(7, ⟨50, []⟩)], []⟩) 7 = [] := by
  decide

/-- C3 amended: `process_recipient_id` invokes the gateway *before* any
balance change — at gateway-invocation time (`process_recipient_id_pre`) the
accounts (balances and transaction logs) are exactly those of the initial
state, only the pending order has been registered — and on gateway rejection
there is no reservation to refund: the accounts are still exactly the
initial ones and no transaction was recorded or marked failed.  (The debit
and the pending transaction happen only after gateway acceptance.) -/
theorem c3_amended_no_reservation_before_gateway (u : Nat) (r : Int)
    (amount : ℚ) (coin oid : String) (resp : KKPayResponse) (s : SharedData)
    (hcode : resp.code ≠ 1000) :
    (process_recipient_id_pre u r amount coin oid s).user_accounts =
      s.user_accounts
    ∧ (process_recipient_id u r true amount coin oid resp s).user_accounts =
        s.user_accounts := by
  refine ⟨rfl, ?_⟩
  rw [process_recipient_id_rejected u r amount coin oid resp s hcode]
  rfl

/-- Witness for the amended C3 at a concrete input (gateway code 9999). -/
theorem c3_amended_witness :
    (process_recipient_id_pre 7 99 30 "USDT" "w1"
      ⟨[(7, ⟨50, []⟩)], []⟩).user_accounts = [(7, ⟨50, []⟩)]
    ∧ (process_recipient_id 7 99 true 30 "USDT" "w1" ⟨9999, "", "0"⟩
        ⟨[(7, ⟨50, []⟩)], []⟩).user_accounts = [(7, ⟨50, []⟩)] :=
  c3_amended_no_reservation_before_gateway 7 99 30 "USDT" "w1" ⟨9999, "", "0"⟩
    ⟨[(7, ⟨50, []⟩)], []⟩ (by decide)

/-- C6 counterexample: a gateway failure (code 9999) during order creation
leaves the order *in* the pending-order set, for the deposit flow and the
withdrawal flow alike — contradicting "the order does not remain registered
as a Pending order awaiting settlement". -/
theorem c6_counterexample :
    get_pending_order (process_topup_amount 5 100 "USDT" "t1" ⟨9999, "", "0"⟩
        ⟨[], []⟩) "t1" = some ⟨5, none, 100, "USDT", "topup", "pending", none, none⟩
    ∧ get_pending_order (process_recipient_id 7 99 true 30 "USDT" "w1"
        ⟨9999, "", "0"⟩ ⟨[(7, ⟨50, []⟩)], []⟩) "w1" =
      some ⟨7, some 99, 30, "USDT", "withdraw", "pending", none, none⟩ := by
  decide

/-- C6 amended: when the gateway rejects order creation, no balance change
and no transaction persists for the user (the accounts are exactly the
pre-call ones), but the order *remains* registered in the pending-order set
with status `pending` — for both the deposit and the withdrawal flow. -/
theorem c6_amended_gateway_failure_keeps_pending_order (u : Nat) (r : Int)
    (amount : ℚ) (coin oid : String) (resp : KKPayResponse) (s : SharedData)
    (hcode : resp.code ≠ 1000) (hamt : 1 ≤ amount) :
    (process_topup_amount u amount coin oid resp s).user_accounts =
      s.user_accounts
    ∧ get_pending_order (process_topup_amount u amount coin oid resp s) oid =
        some ⟨u, none, amount, coin, "topup", "pending", none, none⟩
    ∧ (process_recipient_id u r true amount coin oid resp s).user_accounts =
        s.user_accounts
    ∧ get_pending_order (process_recipient_id u r true amount coin oid resp s) oid =
        some ⟨u, some r, amount, coin, "withdraw", "pending", none, none⟩ := by
  have hlt : ¬ amount < 1 := not_lt.mpr hamt
  have ht := process_topup_amount_rejected u amount coin oid resp s hlt hcode
  have hw := process_recipient_id_rejected u r amount coin oid resp s hcode
  refine ⟨?_, ?_, ?_, ?_⟩
  · rw [ht]
    rfl
  · rw [ht, get_pending_order_add]
    simp
  · rw [hw]
    rfl
  · rw [hw]
    unfold process_recipient_id_pre
    rw [get_pending_order_add]
    simp

/-- Witness for the amended C6 at a concrete input (gateway code 9999). -/
theorem c6_amended_witness :
    (process_topup_amount 5 100 "USDT" "t1" ⟨9999, "", "0"⟩ ⟨[], []⟩).user_accounts = []
    ∧ get_pending_order (process_topup_amount 5 100 "USDT" "t1" ⟨9999, "", "0"⟩
        ⟨[], []⟩) "t1" = some ⟨5, none, 100, "USDT", "topup", "pending", none, none⟩
    ∧ (process_recipient_id 5 99 true 100 "USDT" "t1" ⟨9999, "", "0"⟩
        ⟨[], []⟩).user_accounts = []
    ∧ get_pending_order (process_recipient_id 5 99 true 100 "USDT" "t1"
        ⟨9999, "", "0"⟩ ⟨[], []⟩) "t1" =
      some ⟨5, some 99, 100, "USDT", "withdraw", "pending", none, none⟩ :=
  c6_amended_gateway_failure_keeps_pending_order 5 99 100 "USDT" "t1"
    ⟨9999, "", "0"⟩ ⟨[], []⟩ (by decide) (by norm_num)

theorem balOf_process_recipient_id_pre (u : Nat) (r : Int) (amount : ℚ)
    (coin oid : String) (s : SharedData) (u' : Nat) :
    balOf (process_recipient_id_pre u r amount coin oid s) u' = balOf s u' := rfl

theorem txsOf_process_recipient_id_pre (u : Nat) (r : Int) (amount : ℚ)
    (coin oid : String) (s : SharedData) (u' : Nat) :
    txsOf (process_recipient_id_pre u r amount coin oid s) u' = txsOf s u' := rfl

theorem balOf_set_order_txid_fee (s : SharedData) (oid txid fee : String) (u : Nat) :
    balOf (set_order_txid_fee s oid txid fee) u = balOf s u := by
  simp [balOf, accOf_set_order_txid_fee]

theorem txsOf_set_order_txid_fee (s : SharedData) (oid txid fee : String) (u : Nat) :
    txsOf (set_order_txid_fee s oid txid fee) u = txsOf s u := by
  simp [txsOf, accOf_set_order_txid_fee]

theorem balOf_deduct_balance (s : SharedData) (u : Nat) (amount : ℚ) (u' : Nat) :
    balOf (deduct_balance s u amount) u' =
      if u = u' then balOf s u' - amount else balOf s u' := by
  unfold balOf
  rw [accOf_deduct_balance]
  by_cases h : u = u' <;> simp [h]

theorem txsOf_deduct_balance (s : SharedData) (u : Nat) (amount : ℚ) (u' : Nat) :
    txsOf (deduct_balance s u amount) u' = txsOf s u' := by
  unfold txsOf
  rw [accOf_deduct_balance]
  by_cases h : u = u' <;> simp [h]

theorem txsOf_add_transaction_self (s : SharedData) (u : Nat) (ty : String)
    (amt : ℚ) (st oid note : String) :
    txsOf (add_transaction s u ty amt st oid note) u =
      txsOf s u ++ [⟨ty, amt, some st, oid, note⟩] := by
  unfold txsOf
  rw [accOf_add_transaction]
  simp

theorem balOf_process_recipient_id_post (u : Nat) (r : Int) (amount : ℚ)
    (coin oid : String) (resp : KKPayResponse) (s1 : SharedData)
    (hcode : resp.code = 1000) (u' : Nat) :
    balOf (process_recipient_id_post u r amount coin oid resp s1) u' =
      if u = u' then balOf s1 u' - amount else balOf s1 u' := by
  unfold process_recipient_id_post
  rw [if_pos hcode, balOf_add_transaction, balOf_deduct_balance]
  by_cases h : u = u' <;> simp [h, balOf_set_order_txid_fee]

theorem txsOf_process_recipient_id_post_self (u : Nat) (r : Int) (amount : ℚ)
    (coin oid : String) (resp : KKPayResponse) (s1 : SharedData)
    (hcode : resp.code = 1000) :
    txsOf (process_recipient_id_post u r amount coin oid resp s1) u =
      txsOf s1 u ++ [⟨"withdraw", -amount, some "pending", oid,
        "提现 " ++ coin ++ " 到 " ++ toString r⟩] := by
  unfold process_recipient_id_post
  rw [if_pos hcode, txsOf_add_transaction_self, txsOf_deduct_balance,
    txsOf_set_order_txid_fee]

/-- C10: the balance check (`process_withdraw_amount`) passes once against
balance 50, and under the interleaved schedule both withdrawals of 30 commit
— two pending withdraw transactions are recorded and the balance ends at
-10 < 0 — although their combined amount 60 exceeds the balance 50 at the
time of the first reservation.  There is no per-user mutual exclusion
between the balance check and the deduction, so "at most one succeeds" fails
on the code. -/
theorem c10_both_concurrent_withdrawals_commit :
    (process_withdraw_amount 7 30 ⟨[(7, ⟨50, []⟩)], []⟩).2 = true
    ∧ balOf c10raceFinalState 7 = -10
    ∧ (txsOf c10raceFinalState 7).map Transaction.order_id = ["w1", "w2"]
    ∧ (txsOf c10raceFinalState 7).map Transaction.status =
        [some "pending", some "pending"]
    ∧ balOf c10raceFinalState 7 < 0 := by
  have hcheck : process_withdraw_amount 7 30 ⟨[(7, ⟨50, []⟩)], []⟩ =
      (⟨[(7, ⟨50, []⟩)], []⟩, true) := by
    unfold process_withdraw_amount
    rw [if_neg (by norm_num : ¬ (30 : ℚ) < 1)]
    have hacc : (get_user_account (⟨[(7, ⟨50, []⟩)], []⟩ : SharedData) 7).1.balance
        = 50 := rfl
    simp only [hacc]
    rw [if_neg (by norm_num : ¬ (50 : ℚ) < 30)]
    rfl
  have hb0 : balOf (⟨[(7, ⟨50, []⟩)], []⟩ : SharedData) 7 = 50 := rfl
  have hbal : balOf c10raceFinalState 7 = 50 - 30 - 30 := by
    unfold c10raceFinalState
    rw [balOf_process_recipient_id_post 7 98 30 "USDT" "w2" ⟨1000, "TXB", "1"⟩ _ rfl 7,
      if_pos rfl,
      balOf_process_recipient_id_post 7 99 30 "USDT" "w1" ⟨1000, "TXA", "1"⟩ _ rfl 7,
      if_pos rfl, balOf_process_recipient_id_pre, balOf_process_recipient_id_pre, hb0]
  have htxs : txsOf c10raceFinalState 7 =
      [⟨"withdraw", -30, some "pending", "w1", "提现 " ++ "USDT" ++ " 到 " ++ toString (99 : Int)⟩,
       ⟨"withdraw", -30, some "pending", "w2", "提现 " ++ "USDT" ++ " 到 " ++ toString (98 : Int)⟩] := by
    unfold c10raceFinalState
    rw [txsOf_process_recipient_id_post_self 7 98 30 "USDT" "w2" ⟨1000, "TXB", "1"⟩ _ rfl,
      txsOf_process_recipient_id_post_self 7 99 30 "USDT" "w1" ⟨1000, "TXA", "1"⟩ _ rfl,
      txsOf_process_recipient_id_pre, txsOf_process_recipient_id_pre]
    rfl
  refine ⟨by rw [hcheck], by rw [hbal]; norm_num, by rw [htxs]; rfl,
    by rw [htxs]; rfl, by rw [hbal]; norm_num⟩

/-! ## Invariant machinery for the reachable-state analysis -/

theorem balOf_handle_deposit_callback_ge (cb : CallbackData) (s : SharedData)
    (hcred : 0 ≤ cb.amount.getD 0) (u' : Nat) :
    balOf s u' ≤ balOf (handle_deposit_callback cb s) u' := by
  cases hu : cb.userOrder with
  | none => rw [handle_deposit_callback_none cb s hu]
  | some oid =>
    cases ho : get_pending_order s oid with
    | none => rw [handle_deposit_callback_unknown cb s oid hu ho]
    | some ord =>
      by_cases hst : cb.orderStatus.getD "success" = "success"
      · rw [handle_deposit_eq cb s oid ord hu ho hst, balOf_remove_pending_order,
          balOf_update_transaction_status, balOf_update_user_balance]
        by_cases h : ord.user_id = u'
        · rw [if_pos h, balOf_get_user_account]
          linarith
        · rw [if_neg h, balOf_get_user_account]
      · rw [handle_deposit_eq_nonsuccess cb s oid ord hu ho hst,
          balOf_remove_pending_order, balOf_get_user_account]

theorem pend_handle_deposit_callback (cb : CallbackData) (s : SharedData)
    (hP : PendNonneg s) : PendNonneg (handle_deposit_callback cb s) := by
  intro oid' o h
  cases hu : cb.userOrder with
  | none =>
    rw [handle_deposit_callback_none cb s hu] at h
    exact hP _ _ h
  | some oid =>
    cases ho : get_pending_order s oid with
    | none =>
      rw [handle_deposit_callback_unknown cb s oid hu ho] at h
      exact hP _ _ h
    | some ord =>
      by_cases hst : cb.orderStatus.getD "success" = "success"
      · rw [handle_deposit_eq cb s oid ord hu ho hst, get_pending_order_remove] at h
        by_cases hoid : oid = oid'
        · rw [if_pos hoid] at h
          exact absurd h (by simp)
        · rw [if_neg hoid, get_pending_order_update_transaction_status,
            get_pending_order_update_user_balance,
            get_pending_order_get_user_account] at h
          exact hP _ _ h
      · rw [handle_deposit_eq_nonsuccess cb s oid ord hu ho hst,
          get_pending_order_remove] at h
        by_cases hoid : oid = oid'
        · rw [if_pos hoid] at h
          exact absurd h (by simp)
        · rw [if_neg hoid, get_pending_order_get_user_account] at h
          exact hP _ _ h

theorem balOf_handle_withdraw_callback_ge (cb : CallbackData) (s : SharedData)
    (hP : PendNonneg s) (u' : Nat) :
    balOf s u' ≤ balOf (handle_withdraw_callback cb s) u' := by
  cases hu : cb.userOrder with
  | none => rw [handle_withdraw_callback_none cb s hu]
  | some oid =>
    cases ho : get_pending_order s oid with
    | none => rw [handle_withdraw_callback_unknown cb s oid hu ho]
    | some ord =>
      by_cases hst : cb.orderStatus = some "fail"
      · have hamt : 0 ≤ ord.amount := hP oid ord ho
        rw [handle_withdraw_eq_fail cb s oid ord hu ho hst,
          balOf_remove_pending_order, balOf_update_user_balance]
        by_cases h : ord.user_id = u'
        · rw [if_pos h, balOf_update_transaction_status, balOf_get_user_account]
          linarith
        · rw [if_neg h, balOf_update_transaction_status, balOf_get_user_account]
      · rw [handle_withdraw_eq_nonfail cb s oid ord hu ho hst,
          balOf_remove_pending_order, balOf_update_transaction_status,
          balOf_get_user_account]

theorem pend_handle_withdraw_callback (cb : CallbackData) (s : SharedData)
    (hP : PendNonneg s) : PendNonneg (handle_withdraw_callback cb s) := by
  intro oid' o h
  cases hu : cb.userOrder with
  | none =>
    rw [handle_withdraw_callback_none cb s hu] at h
    exact hP _ _ h
  | some oid =>
    cases ho : get_pending_order s oid with
    | none =>
      rw [handle_withdraw_callback_unknown cb s oid hu ho] at h
      exact hP _ _ h
    | some ord =>
      by_cases hst : cb.orderStatus = some "fail"
      · rw [handle_withdraw_eq_fail cb s oid ord hu ho hst,
          get_pending_order_remove] at h
        by_cases hoid : oid = oid'
        · rw [if_pos hoid] at h
          exact absurd h (by simp)
        · rw [if_neg hoid, get_pending_order_update_user_balance,
            get_pending_order_update_transaction_status,
            get_pending_order_get_user_account] at h
          exact hP _ _ h
      · rw [handle_withdraw_eq_nonfail cb s oid ord hu ho hst,
          get_pending_order_remove] at h
        by_cases hoid : oid = oid'
        · rw [if_pos hoid] at h
          exact absurd h (by simp)
        · rw [if_neg hoid, get_pending_order_update_transaction_status,
            get_pending_order_get_user_account] at h
          exact hP _ _ h

theorem stepOp_preserves_inv (b : BotState) (op : Op) (hop : opOk op = true)
    (hinv : InvState b) : InvState (stepOp b op) := by
  obtain ⟨hbal, hpend, hfsm⟩ := hinv
  cases op with
  | startCmd u =>
    simp only [stepOp]
    refine ⟨fun u' => ?_, fun oid o h => ?_, fun u' coin amt h => ?_⟩
    · rw [balOf_get_user_account]
      exact hbal u'
    · rw [get_pending_order_get_user_account] at h
      exact hpend _ _ h
    · have h' := hfsm u' coin amt h
      rw [balOf_get_user_account]
      exact h'
  | selectCoinTopup u coin =>
    simp only [stepOp]
    refine ⟨hbal, hpend, fun u' coin' amt h => ?_⟩
    rw [getFSM_alSet] at h
    by_cases hu : u = u'
    · rw [if_pos hu] at h
      exact absurd h (by simp)
    · rw [if_neg hu] at h
      exact hfsm u' coin' amt h
  | selectCoinWithdraw u coin =>
    simp only [stepOp]
    refine ⟨hbal, hpend, fun u' coin' amt h => ?_⟩
    rw [getFSM_alSet] at h
    by_cases hu : u = u'
    · rw [if_pos hu] at h
      exact absurd h (by simp)
    · rw [if_neg hu] at h
      exact hfsm u' coin' amt h
  | topupAmount u amount oid resp =>
    simp only [stepOp]
    cases hgf : getFSM b u with
    | idle => exact ⟨hbal, hpend, hfsm⟩
    | waitingWithdrawAmount coin => exact ⟨hbal, hpend, hfsm⟩
    | waitingRecipient coin amt => exact ⟨hbal, hpend, hfsm⟩
    | waitingTopupAmount coin =>
      dsimp only
      by_cases h1 : amount < 1
      · rw [if_pos h1]
        exact ⟨hbal, hpend, hfsm⟩
      · rw [if_neg h1]
        refine ⟨fun u' => ?_, fun oid' o h => ?_, fun u' coin' amt h => ?_⟩
        · rw [balOf_process_topup_amount]
          exact hbal u'
        · rw [pending_process_topup_amount u amount coin oid resp b.shared h1 oid'] at h
          by_cases hoid : oid = oid'
          · rw [if_pos hoid] at h
            cases h
            push_neg at h1
            simp only []
            linarith
          · rw [if_neg hoid] at h
            exact hpend _ _ h
        · rw [getFSM_alSet] at h
          by_cases hu : u = u'
          · rw [if_pos hu] at h
            exact absurd h (by simp)
          · rw [if_neg hu] at h
            have h' := hfsm u' coin' amt h
            rw [balOf_process_topup_amount]
            exact h'
  | withdrawAmount u amount =>
    simp only [stepOp]
    cases hgf : getFSM b u with
    | idle => exact ⟨hbal, hpend, hfsm⟩
    | waitingTopupAmount coin => exact ⟨hbal, hpend, hfsm⟩
    | waitingRecipient coin amt => exact ⟨hbal, hpend, hfsm⟩
    | waitingWithdrawAmount coin =>
      dsimp only
      obtain ⟨hacc, hpnd, hchk⟩ := process_withdraw_amount_spec u amount b.shared
      have hbal1 : ∀ u', balOf (process_withdraw_amount u amount b.shared).1 u' =
          balOf b.shared u' := fun u' => by
        unfold balOf
        rw [hacc u']
      have hpend1 : PendNonneg (process_withdraw_amount u amount b.shared).1 := by
        intro oid o h
        unfold get_pending_order at h
        rw [hpnd] at h
        exact hpend _ _ h
      by_cases h2 : (process_withdraw_amount u amount b.shared).2 = true
      · rw [if_pos h2]
        obtain ⟨h1le, hle⟩ := hchk h2
        refine ⟨fun u' => ?_, hpend1, fun u' coin' amt h => ?_⟩
        · rw [hbal1 u']
          exact hbal u'
        · rw [getFSM_alSet] at h
          by_cases hu : u = u'
          · rw [if_pos hu] at h
            injection h with hc ha
            subst ha
            subst hu
            rw [hbal1 u]
            exact ⟨by linarith, hle⟩
          · rw [if_neg hu] at h
            have h' := hfsm u' coin' amt h
            rw [hbal1 u']
            exact h'
      · rw [if_neg h2]
        refine ⟨fun u' => ?_, hpend1, fun u' coin' amt h => ?_⟩
        · rw [hbal1 u']
          exact hbal u'
        · have h' := hfsm u' coin' amt h
          rw [hbal1 u']
          exact h'
  | recipientId u r rex oid resp =>
    simp only [stepOp]
    cases hgf : getFSM b u with
    | idle => exact ⟨hbal, hpend, hfsm⟩
    | waitingTopupAmount coin => exact ⟨hbal, hpend, hfsm⟩
    | waitingWithdrawAmount coin => exact ⟨hbal, hpend, hfsm⟩
    | waitingRecipient coin amt =>
      cases rex with
      | false =>
        dsimp only
        exact ⟨hbal, hpend, hfsm⟩
      | true =>
        dsimp only
        rw [if_neg (show ¬ (true = false) by simp)]
        obtain ⟨hamt0, hamtle⟩ := hfsm u coin amt hgf
        by_cases hcode : resp.code = 1000
        · refine ⟨fun u' => ?_, fun oid' o h => ?_, fun u' coin' amt' h => ?_⟩
          · rw [balOf_process_recipient_id u r amt coin oid resp b.shared hcode]
            by_cases hu : u = u'
            · rw [if_pos hu]
              subst hu
              linarith
            · rw [if_neg hu]
              exact hbal u'
          · rw [pending_process_recipient_id u r amt coin oid resp b.shared
              hcode oid'] at h
            by_cases hoid : oid = oid'
            · rw [if_pos hoid] at h
              cases h
              simp only []
              linarith
            · rw [if_neg hoid] at h
              exact hpend _ _ h
          · rw [getFSM_alSet] at h
            by_cases hu : u = u'
            · rw [if_pos hu] at h
              exact absurd h (by simp)
            · rw [if_neg hu] at h
              have h' := hfsm u' coin' amt' h
              rw [balOf_process_recipient_id u r amt coin oid resp b.shared hcode,
                if_neg hu]
              exact h'
        · rw [process_recipient_id_rejected u r amt coin oid resp b.shared hcode]
          refine ⟨fun u' => ?_, fun oid' o h => ?_, fun u' coin' amt' h => ?_⟩
          · rw [balOf_process_recipient_id_pre]
            exact hbal u'
          · rw [pending_process_recipient_id_pre u r amt coin oid b.shared oid'] at h
            by_cases hoid : oid = oid'
            · rw [if_pos hoid] at h
              cases h
              simp only []
              linarith
            · rw [if_neg hoid] at h
              exact hpend _ _ h
          · rw [getFSM_alSet] at h
            by_cases hu : u = u'
            · rw [if_pos hu] at h
              exact absurd h (by simp)
            · rw [if_neg hu] at h
              have h' := hfsm u' coin' amt' h
              rw [balOf_process_recipient_id_pre]
              exact h'
  | depositCallback cb =>
    simp only [stepOp]
    have hcred : 0 ≤ cb.amount.getD 0 := by
      simp only [opOk] at hop
      exact of_decide_eq_true hop
    refine ⟨fun u' => ?_, pend_handle_deposit_callback cb b.shared hpend,
      fun u' coin amt h => ?_⟩
    · exact le_trans (hbal u') (balOf_handle_deposit_callback_ge cb b.shared hcred u')
    · have h' := hfsm u' coin amt h
      exact ⟨h'.1,
        le_trans h'.2 (balOf_handle_deposit_callback_ge cb b.shared hcred u')⟩
  | withdrawCallback cb =>
    simp only [stepOp]
    refine ⟨fun u' => ?_, pend_handle_withdraw_callback cb b.shared hpend,
      fun u' coin amt h => ?_⟩
    · exact le_trans (hbal u') (balOf_handle_withdraw_callback_ge cb b.shared hpend u')
    · have h' := hfsm u' coin amt h
      exact ⟨h'.1,
        le_trans h'.2 (balOf_handle_withdraw_callback_ge cb b.shared hpend u')⟩

theorem invState_init : InvState initState := by
  refine ⟨fun u => le_refl 0, fun oid o h => ?_, fun u coin amt h => ?_⟩
  · simp [initState, get_pending_order, alGet] at h
  · simp [initState, getFSM, alGet] at h

theorem invState_runOps (ops : List Op) (b : BotState) (hb : InvState b)
    (hops : ∀ op ∈ ops, opOk op = true) : InvState (runOps b ops) := by
  induction ops generalizing b with
  | nil => exact hb
  | cons op rest ih =>
    exact ih (stepOp b op)
      (stepOp_preserves_inv b op (hops op (by simp)) hb)
      (fun o ho => hops o (by simp [ho]))

/-- `stepOp` on `Op.topupAmount` when the user is at the topup-amount prompt
and the amount passes the minimum check. -/
theorem stepOp_topupAmount_go (b : BotState) (u : Nat) (amount : ℚ)
    (oid : String) (resp : KKPayResponse) (coin : String)
    (hfsm : getFSM b u = FSMState.waitingTopupAmount coin) (h1 : ¬ amount < 1) :
    stepOp b (Op.topupAmount u amount oid resp) =
      ⟨process_topup_amount u amount coin oid resp b.shared,
       alSet b.fsm u FSMState.idle⟩ := by
  simp only [stepOp, hfsm]
  rw [if_neg h1]

/-- C4 counterexample: the reachable trace "user 1 selects a coin, creates a
topup order for 100 (gateway accepts), and the processor delivers a signed
deposit success callback whose `amount` field is -5" ends with user 1's
recorded account at balance -5 < 0: `handle_deposit_callback` credits
`float(callback_data.get('amount', 0))` without a sign check, so a negative
callback amount drives a committed balance below zero. -/
theorem c4_counterexample :
    balOf (runOps initState [Op.selectCoinTopup 1 "USDT",
      Op.topupAmount 1 100 "t1" ⟨1000, "TX", "0"⟩,
      Op.depositCallback ⟨some "deposit", some "t1", some (-5), some "success"⟩]).shared 1 < 0
    ∧ (alGet (runOps initState [Op.selectCoinTopup 1 "USDT",
        Op.topupAmount 1 100 "t1" ⟨1000, "TX", "0"⟩,
        Op.depositCallback ⟨some "deposit", some "t1", some (-5), some "success"⟩]
      ).shared.user_accounts 1).isSome = true := by
  have hb1 : stepOp initState (Op.selectCoinTopup 1 "USDT") =
      ⟨⟨[], []⟩, [(1, FSMState.waitingTopupAmount "USDT")]⟩ := rfl
  have hb2 : stepOp (⟨⟨[], []⟩, [(1, FSMState.waitingTopupAmount "USDT")]⟩ : BotState)
      (Op.topupAmount 1 100 "t1" ⟨1000, "TX", "0"⟩) =
      ⟨process_topup_amount 1 100 "USDT" "t1" ⟨1000, "TX", "0"⟩ ⟨[], []⟩,
       alSet [(1, FSMState.waitingTopupAmount "USDT")] 1 FSMState.idle⟩ :=
    stepOp_topupAmount_go _ 1 100 "t1" _ "USDT" rfl (by norm_num)
  have hrun : (runOps initState [Op.selectCoinTopup 1 "USDT",
      Op.topupAmount 1 100 "t1" ⟨1000, "TX", "0"⟩,
      Op.depositCallback ⟨some "deposit", some "t1", some (-5), some "success"⟩]).shared =
      handle_deposit_callback ⟨some "deposit", some "t1", some (-5), some "success"⟩
        (process_topup_amount 1 100 "USDT" "t1" ⟨1000, "TX", "0"⟩ ⟨[], []⟩) := by
    show (stepOp (stepOp (stepOp initState (Op.selectCoinTopup 1 "USDT"))
        (Op.topupAmount 1 100 "t1" ⟨1000, "TX", "0"⟩))
        (Op.depositCallback ⟨some "deposit", some "t1", some (-5), some "success"⟩)).shared = _
    rw [hb1, hb2]
    rfl
  have hbal2 : balOf (process_topup_amount 1 100 "USDT" "t1" ⟨1000, "TX", "0"⟩
      ⟨[], []⟩) 1 = 0 := by
    rw [balOf_process_topup_amount]
    rfl
  have hpend2 : get_pending_order (process_topup_amount 1 100 "USDT" "t1"
      ⟨1000, "TX", "0"⟩ ⟨[], []⟩) "t1" =
      some ⟨1, none, 100, "USDT", "topup", "pending", some "TX", none⟩ := by
    rw [pending_process_topup_amount 1 100 "USDT" "t1" ⟨1000, "TX", "0"⟩ ⟨[], []⟩
      (by norm_num) "t1"]
    simp
  have hdep := handle_deposit_eq ⟨some "deposit", some "t1", some (-5), some "success"⟩
    (process_topup_amount 1 100 "USDT" "t1" ⟨1000, "TX", "0"⟩ ⟨[], []⟩) "t1"
    ⟨1, none, 100, "USDT", "topup", "pending", some "TX", none⟩ rfl hpend2 rfl
  have hbal3 : balOf (handle_deposit_callback
      ⟨some "deposit", some "t1", some (-5), some "success"⟩
      (process_topup_amount 1 100 "USDT" "t1" ⟨1000, "TX", "0"⟩ ⟨[], []⟩)) 1 =
      0 + (-5) := by
    rw [hdep, balOf_remove_pending_order, balOf_update_transaction_status,
      balOf_update_user_balance]
    simp only [if_pos rfl]
    rw [balOf_get_user_account, hbal2]
    rfl
  constructor
  · rw [hrun, hbal3]
    norm_num
  · rw [hrun, hdep]
    show (alGet (update_transaction_status (update_user_balance _ 1 _) 1 "t1"
      (some "success")).user_accounts 1).isSome = true
    unfold update_transaction_status
    simp [alGet_alSet]

/-- C4 amended: provided every deposit settlement callback delivered in the
trace carries a nonnegative amount (`opOk`), every recorded account balance
is ≥ 0 in every state reachable from the empty initial state by the public
operations (account lookup, order creation, settlement callbacks).  Without
that proviso the property fails (see the counterexample). -/
theorem c4_amended_nonnegative_balances (ops : List Op)
    (hops : ∀ op ∈ ops, opOk op = true) (u : Nat) (a : Account)
    (ha : alGet (runOps initState ops).shared.user_accounts u = some a) :
    0 ≤ a.balance := by
  have hinv := invState_runOps ops initState invState_init hops
  have hb := hinv.1 u
  unfold balOf accOf at hb
  rw [ha] at hb
  exact hb

/-- Witness for the amended C4 at a concrete input: after the trace
`[startCmd 3]` the account of user 3 exists with balance 0 ≥ 0. -/
theorem c4_amended_witness : 0 ≤ (Account.mk 0 []).balance :=
  c4_amended_nonnegative_balances [Op.startCmd 3] (by decide) 3 ⟨0, []⟩ rfl

/-! ## Test vectors pinning the SHA-256/base64 embedding to `hashlib`

Kernel-checked digests of the embedding against FIPS 180-4 reference values
(as produced by Python's `hashlib.sha256` / `base64.b64encode`), including
the padding boundary cases: 55 bytes (padding wraps to a single block with
no zero bytes) and 119 bytes (same residue, two blocks). -/

set_option maxRecDepth 100000 in
theorem sha256_vector_abc :
    base64encode (sha256 (utf8Bytes "abc")) =
      "ungWv48Bz+pBQUDeXa4iI7ADYaOWF3qctBD/YfIAFa0=" := by
  decide

set_option maxRecDepth 100000 in
theorem sha256_vector_len55 :
    base64encode (sha256 (List.replicate 55 97)) =
      "n0OQ+NMMLdkuyfCVtl4rmumwqSWlJY4kHJ8ekQ9zQxg=" := by
  decide

set_option maxRecDepth 100000 in
theorem sha256_vector_len119 :
    base64encode (sha256 (List.replicate 119 97)) =
      "MeulHDE6XAgiat8Y1KNZz9/Y0ugWsT9K+VL36mWE3Ps=" := by
  decide

theorem base64_vector_padding :
    base64encode (utf8Bytes "Man") = "TWFu"
    ∧ base64encode (utf8Bytes "Ma") = "TWE="
    ∧ base64encode (utf8Bytes "M") = "TQ==" := by
  decide
